import Mathlib

/-!
A shallow embedding of the core game logic of the `we-have-a-situation`
repository (files `src/core/game_state.py`, `src/core/dialogue_system.py`,
`src/core/ai_opponent.py`), together with proofs about the embedded
definitions.

Modelling conventions:
* Python floats are modelled as `ℚ` (all constants in the source are decimal
  literals for which the operations performed — additions, comparisons,
  multiplication by 1.5/0.5 of small integers — are exact in IEEE double,
  so the rational model computes the same values the program does).
* Python ints are modelled as `ℤ`.
* Python dicts with string keys are modelled as association lists
  `List (String × ℤ)`; a write `d[k] = v` that is guarded by `if k in d`
  is modelled by `amodMem` (update only when the key is present), an
  unguarded write by `aset` (update or append).
* In-place mutation is modelled by explicit state passing.
* A Python statement that can raise (`self.hostages_wounded += 1` raises
  `AttributeError` because `GameState.__init__` never defines that
  attribute) is modelled in the `Except String` monad; the raw variant
  `update_hostage_status_raw` additionally keeps the partial mutation that
  Python performs before the raise.
* Calls of `random.random()` / `random.choice` are modelled by explicit
  oracle parameters (a boolean for each threshold comparison, a natural
  number index for each choice), quantified over in the theorems.
-/

namespace WHaS

/-- `max(0.0, min(1.0, x))`, the clamping pattern used by
`modify_trust` / `modify_tension` / `modify_morale` in `game_state.py`. -/
def clamp01 (x : ℚ) : ℚ := max 0 (min 1 x)

/-- Python `int(...)` applied to an exact rational value: truncation toward
zero (`int(1.5) = 1`, `int(-1.5) = -1`). -/
def pyInt (q : ℚ) : ℤ := Int.tdiv q.num (q.den : ℤ)

/-- Integer-valued string-keyed dictionary (`self.player_resources` etc.). -/
abbrev AListZ := List (String × ℤ)

/-- Dict lookup `d[k]` returning `none` when the key is absent. -/
def aget (l : AListZ) (k : String) : Option ℤ :=
  match l with
  | [] => none
  | (k', v) :: t => if k' = k then some v else aget t k

/-- Dict lookup with default, `d.get(k, dflt)`. -/
def agetD (l : AListZ) (k : String) (dflt : ℤ) : ℤ := (aget l k).getD dflt

/-- The guarded update pattern `if k in d: d[k] = f(d[k])` (first matching
entry only; keys are unique in all states built by `__init__`). -/
def amodMem (l : AListZ) (k : String) (f : ℤ → ℤ) : AListZ :=
  match l with
  | [] => []
  | (k', v) :: t => if k' = k then (k', f v) :: t else (k', v) :: amodMem t k f

/-- Unguarded dict write `d[k] = v` (update or append). -/
def aset (l : AListZ) (k : String) (v : ℤ) : AListZ :=
  match l with
  | [] => [(k, v)]
  | (k', v') :: t => if k' = k then (k, v) :: t else (k', v') :: aset t k v

/-- Boolean-valued dictionary (`self.tactical_positions`). -/
abbrev AListB := List (String × Bool)

/-- Guarded update on a boolean dict (`set_tactical_position`). -/
def bsetMem (l : AListB) (k : String) (v : Bool) : AListB :=
  match l with
  | [] => []
  | (k', v') :: t => if k' = k then (k', v) :: t else (k', v') :: bsetMem t k v

/-- `Faction` enum of `game_state.py`. -/
inductive Faction
  | FBI | CIA | LOCAL_PD | SHADOW_SYNDICATE | RED_DRAGON_TRIAD | LIBERATION_FRONT
  deriving Repr, DecidableEq

/-- The `.value` strings of the `Faction` enum. -/
def Faction.value : Faction → String
  | .FBI => "Federal Bureau of Investigation"
  | .CIA => "Central Intelligence Agency"
  | .LOCAL_PD => "Local Police Department"
  | .SHADOW_SYNDICATE => "Shadow Syndicate"
  | .RED_DRAGON_TRIAD => "Red Dragon Triad"
  | .LIBERATION_FRONT => "Liberation Front"

/-- `GameState._assign_ai_opponent` (`game_state.py`). -/
def assign_ai_opponent : Faction → Faction
  | .FBI => .LIBERATION_FRONT
  | .CIA => .SHADOW_SYNDICATE
  | _ => .RED_DRAGON_TRIAD

/-- One entry of `self.hostages_status` (`game_state.py`, `__init__`):
a dict with keys `id`, `name`, `status`, `health`, `stress`. -/
structure Hostage where
  id : ℕ
  name : String
  status : String
  health : ℤ
  stress : ℤ
  deriving Repr, DecidableEq

/-- The dict argument of `update_hostage_status`; every call site in the
repository passes at most the keys `status` and `health`. -/
structure StatusUpdate where
  status : Option String := none
  health : Option ℤ := none
  deriving Repr, DecidableEq

/--
The mutable state of `game_state.py`'s `GameState`.  Fields not consulted
by any code modelled here are omitted: the objectives lists, the
`ai_opponent` object (`None` until `init_ai_opponent`, and mutated only
through `track_player_action`, which touches no field below), the AI turn
bookkeeping lists, and the dialogue history.  `hostages_wounded` is
`Option ℤ`: Python attributes are dynamic and `__init__` never defines
this one, so it is `none` in every state the constructor produces.
-/
structure GameState where
  player_faction : Faction
  ai_faction : Faction
  turn : ℤ
  max_turns : ℤ
  action_points : ℤ
  next_turn_extra_ap : ℤ
  trust_level : ℚ
  tension_level : ℚ
  morale_level : ℚ
  game_history : List (ℤ × String)
  action_cooldowns : AListZ
  player_resources : AListZ
  ai_resources : AListZ
  ai_personnel : AListZ
  player_personnel : AListZ
  total_hostages : ℤ
  hostages_released : ℤ
  hostages_killed : ℤ
  hostages_wounded : Option ℤ
  hostage_deadline : ℤ
  hostages_status : List Hostage
  tactical_positions : AListB
  env_power_status : String
  env_water_status : String
  env_fire_status : String
  demands_money : ℤ
  demands_met_money : ℤ
  last_action_category : Option String
  last_action_success : Option Bool
  game_over : Bool
  victory : Bool
  defeat_reason : Option String
  communications_disabled : Bool
  power_cut : Bool
  media_presence : Bool
  hostage_taker_morale : ℚ
  hostage_taker_aggression : ℚ
  demands_urgency : ℚ
  deriving Repr, DecidableEq

/-- The hostage roster built by `__init__`: ten captured hostages with
ids `0..9`, health 100, stress 50. -/
def initHostages : List Hostage :=
  (List.range 10).map fun i =>
    { id := i, name := "Hostage " ++ toString (i + 1),
      status := "captured", health := 100, stress := 50 }

/-- `GameState.__init__` (`game_state.py`), as a function of the chosen
player faction. -/
def initState (pf : Faction) : GameState where
  player_faction := pf
  ai_faction := assign_ai_opponent pf
  turn := 1
  max_turns := 20
  action_points := 3
  next_turn_extra_ap := 0
  trust_level := 1/2
  tension_level := 3/10
  morale_level := 3/4
  game_history := [(1, "Situation begins. " ++ pf.value ++ " responds.")]
  action_cooldowns := []
  player_resources :=
    [("manpower", 10), ("equipment", 5), ("intelligence", 3), ("medical", 4),
     ("negotiation_leverage", 2), ("public_support", 7),
     ("surveillance_cameras", 6), ("communications_equipment", 8),
     ("tactical_gear", 5), ("water_supplies", 10),
     ("electrical_equipment", 4), ("political_influence", 3),
     ("money", 5000000), ("vehicles", 6), ("security_perimeter", 80),
     ("media_control", 60)]
  ai_resources :=
    [("manpower", 8), ("equipment", 4), ("concealment", 7), ("leverage", 5),
     ("money_demanded", 1000000)]
  ai_personnel :=
    [("armed_members", 6), ("negotiators", 2), ("lookouts", 4),
     ("technical_experts", 2)]
  player_personnel :=
    [("negotiators", 4), ("tactical_team", 8), ("medical_staff", 3),
     ("tech_specialists", 3), ("intelligence_officers", 4)]
  total_hostages := 10
  hostages_released := 0
  hostages_killed := 0
  hostages_wounded := none
  hostage_deadline := 10
  hostages_status := initHostages
  tactical_positions :=
    [("perimeter", true), ("negotiation_point", true), ("command_post", true),
     ("sniper_positions", false), ("breach_points", false),
     ("surveillance", false)]
  env_power_status := "on"
  env_water_status := "on"
  env_fire_status := "none"
  demands_money := 1000000
  demands_met_money := 0
  last_action_category := none
  last_action_success := none
  game_over := false
  victory := false
  defeat_reason := none
  communications_disabled := false
  power_cut := false
  media_presence := true
  hostage_taker_morale := 7/10
  hostage_taker_aggression := 3/10
  demands_urgency := 2/5

/-- `GameState.modify_trust`: clamp trust into `[0, 1]`. -/
def modify_trust (gs : GameState) (amount : ℚ) : GameState :=
  { gs with trust_level := clamp01 (gs.trust_level + amount) }

/-- `GameState.modify_tension`: clamp tension into `[0, 1]`. -/
def modify_tension (gs : GameState) (amount : ℚ) : GameState :=
  { gs with tension_level := clamp01 (gs.tension_level + amount) }

/-- `GameState.modify_morale`: clamp morale into `[0, 1]`. -/
def modify_morale (gs : GameState) (amount : ℚ) : GameState :=
  { gs with morale_level := clamp01 (gs.morale_level + amount) }

/-- `GameState.modify_player_resource`: guarded, clamped at 0. -/
def modify_player_resource (gs : GameState) (resource : String) (amount : ℤ) :
    GameState :=
  { gs with player_resources :=
      amodMem gs.player_resources resource fun v => max 0 (v + amount) }

/-- `GameState.modify_ai_resource`: guarded, clamped at 0. -/
def modify_ai_resource (gs : GameState) (resource : String) (amount : ℤ) :
    GameState :=
  { gs with ai_resources :=
      amodMem gs.ai_resources resource fun v => max 0 (v + amount) }

/-- `GameState.modify_player_personnel`: guarded, clamped at 0. -/
def modify_player_personnel (gs : GameState) (ptype : String) (amount : ℤ) :
    GameState :=
  { gs with player_personnel :=
      amodMem gs.player_personnel ptype fun v => max 0 (v + amount) }

/-- `GameState.modify_ai_personnel`: guarded, clamped at 0. -/
def modify_ai_personnel (gs : GameState) (ptype : String) (amount : ℤ) :
    GameState :=
  { gs with ai_personnel :=
      amodMem gs.ai_personnel ptype fun v => max 0 (v + amount) }

/--
`GameState.check_game_over` (`game_state.py` lines 237-290): returns the
mutated state and the boolean result.  Victory conditions are tested
first, in source order; dict reads like `self.ai_resources['manpower']`
are modelled with `agetD _ _ 0` (the keys are present in every state
reachable from `__init__`, since resource dicts never lose keys).
-/
def check_game_over (gs : GameState) : GameState × Bool :=
  if gs.hostages_released = gs.total_hostages then
    ({ gs with game_over := true, victory := true }, true)
  else if gs.trust_level > 8/10 ∧ gs.tension_level < 3/10 ∧
      gs.hostage_taker_morale < 3/10 then
    ({ gs with game_over := true, victory := true }, true)
  else if agetD gs.ai_resources "manpower" 0 ≤ 0 ∧
      agetD gs.ai_personnel "armed_members" 0 ≤ 0 then
    ({ gs with game_over := true, victory := true }, true)
  else if gs.hostages_killed > 3 then
    ({ gs with game_over := true
               victory := false
               defeat_reason := some "Too many hostages killed" }, true)
  else if gs.tension_level ≥ 1 then
    ({ gs with game_over := true
               victory := false
               defeat_reason := some "Situation escalated out of control" }, true)
  else if gs.turn > gs.max_turns then
    ({ gs with game_over := true
               victory := false
               defeat_reason := some "Time ran out" }, true)
  else if gs.hostage_deadline ≤ 0 ∧ gs.demands_met_money < gs.demands_money then
    ({ gs with game_over := true
               victory := false
               defeat_reason := some "Failed to meet demands before deadline" }, true)
  else if agetD gs.player_resources "manpower" 0 ≤ 0 ∨
      agetD gs.player_personnel "negotiators" 0 ≤ 0 then
    ({ gs with game_over := true
               victory := false
               defeat_reason := some "Critical personnel lost" }, true)
  else (gs, false)

/--
`GameState.get_dynamic_success_chance` (`game_state.py` lines 292-324).
Note the category names it tests (`"NEGOTIATE"`, `"TACTICAL"`, `"FORCE"`,
`"SPECIAL"`, `"TECH"`) — its only caller, `GameAction.update_success_chance`,
passes `ActionCategory.value` strings (`"Negotiation"`, `"Force"`, `"Tech"`,
…), which match none of them.
-/
def get_dynamic_success_chance (gs : GameState) (action_category : String)
    (base_chance : ℚ) : ℚ :=
  let m := base_chance
  let m := if (action_category = "NEGOTIATE" ∨ action_category = "TACTICAL") ∧
      gs.trust_level > 7/10 then m + 5/100 else m
  let m := if (action_category = "FORCE" ∨ action_category = "SPECIAL") ∧
      gs.tension_level > 7/10 then m - 5/100 else m
  let m := if gs.morale_level < 3/10 ∧ action_category = "SPECIAL" then m - 1/10
    else if gs.morale_level > 7/10 then m + 5/100 else m
  let m := if gs.last_action_category = some "NEGOTIATE" ∧
      gs.last_action_success = some true ∧ action_category = "NEGOTIATE" then
      m + 1/10 else m
  let m := if gs.last_action_category = some "FORCE" ∧
      gs.last_action_success ≠ some true ∧ action_category = "NEGOTIATE" then
      m - 1/10 else m
  let m := if gs.env_power_status ≠ "on" ∧ action_category = "TECH" then
      m - 15/100 else m
  let m := if gs.env_fire_status ≠ "none" ∧ action_category = "FORCE" then
      m - 1/10 else m
  max (1/10) (min (95/100) m)

/-- `GameState.is_action_on_cooldown`. -/
def is_action_on_cooldown (gs : GameState) (action_name : String) : Bool :=
  match aget gs.action_cooldowns action_name with
  | some c => c > 0
  | none => false

/-- `GameState.add_action_cooldown`. -/
def add_action_cooldown (gs : GameState) (action_name : String)
    (duration : ℤ) : GameState :=
  { gs with action_cooldowns := aset gs.action_cooldowns action_name duration }

/-- `GameState.set_tactical_position`. -/
def set_tactical_position (gs : GameState) (position : String) (active : Bool) :
    GameState :=
  { gs with tactical_positions := bsetMem gs.tactical_positions position active }

/-- Apply a `status_update` dict to one hostage dict: both keys `status`
and `health` are always present in a hostage, so a given key is written. -/
def applyUpd (h : Hostage) (u : StatusUpdate) : Hostage :=
  { h with status := u.status.getD h.status, health := u.health.getD h.health }

/-- The loop of `update_hostage_status`: update the first hostage whose
`id` matches, leave the rest unchanged. -/
def updFirst (l : List Hostage) (hostage_id : ℕ) (u : StatusUpdate) :
    List Hostage :=
  match l with
  | [] => []
  | h :: t =>
    if h.id = hostage_id then applyUpd h u :: t
    else h :: updFirst t hostage_id u

/-- Whether some hostage in the list has the given id (the loop body of
`update_hostage_status` runs only in that case). -/
def hasId (l : List Hostage) (hostage_id : ℕ) : Bool :=
  l.any fun h => h.id = hostage_id

/-- The `AttributeError` text raised by `self.hostages_wounded += 1`. -/
def attrErr : String :=
  "AttributeError: GameState object has no attribute hostages_wounded"

/--
`GameState.update_hostage_status` (`game_state.py` lines 402-416), raw
form.  The matching hostage's dict is updated first; then the status
counters are bumped.  `status == 'wounded'` increments
`self.hostages_wounded`, an attribute `__init__` never defines: when the
field is `none` this returns the partially mutated state (the hostage dict
was already written) together with the `AttributeError`, exactly as the
Python mutation has happened by the time the exception is raised.
-/
def update_hostage_status_raw (gs : GameState) (hostage_id : ℕ)
    (u : StatusUpdate) : GameState × Option String :=
  if hasId gs.hostages_status hostage_id then
    let gs' := { gs with
      hostages_status := updFirst gs.hostages_status hostage_id u }
    match u.status with
    | some s =>
      if s = "killed" then
        ({ gs' with hostages_killed := gs'.hostages_killed + 1 }, none)
      else if s = "wounded" then
        match gs'.hostages_wounded with
        | some n => ({ gs' with hostages_wounded := some (n + 1) }, none)
        | none => (gs', some attrErr)
      else if s = "released" then
        ({ gs' with hostages_released := gs'.hostages_released + 1 }, none)
      else (gs', none)
    | none => (gs', none)
  else (gs, none)

/-- `update_hostage_status` in the `Except` monad (exception propagates). -/
def update_hostage_status (gs : GameState) (hostage_id : ℕ)
    (u : StatusUpdate) : Except String GameState :=
  match update_hostage_status_raw gs hostage_id u with
  | (gs', none) => .ok gs'
  | (_, some e) => .error e

/-- Unguarded write on a boolean dict (direct assignments like
`self.tactical_positions['sniper_positions'] = True`). -/
def bset (l : AListB) (k : String) (v : Bool) : AListB :=
  match l with
  | [] => [(k, v)]
  | (k', v') :: t => if k' = k then (k, v) :: t else (k', v') :: bset t k v

/-- The environment-dict write `self.environment[condition] = value` for
the three conditions any modelled call site can pass. -/
def setEnv (gs : GameState) (condition value : String) : GameState :=
  if condition = "power_status" then { gs with env_power_status := value }
  else if condition = "water_status" then { gs with env_water_status := value }
  else if condition = "fire_status" then { gs with env_fire_status := value }
  else gs

/-- The environment-dict read `self.environment[condition]`. -/
def getEnv (gs : GameState) (condition : String) : String :=
  if condition = "power_status" then gs.env_power_status
  else if condition = "water_status" then gs.env_water_status
  else gs.env_fire_status

/--
`GameState.update_environment` (`game_state.py` lines 418-452).  The
source first performs `self.environment[condition] = value` and only then
compares `self.environment[condition]` (i.e. the value just written)
against the old-state patterns, so every side-effect branch below is
guarded by a condition of the shape `value == 'off' and value != 'off'`
and is unreachable; the branches are still translated.  Dict reads inside
those dead branches are modelled with `agetD _ _ 0` (in Python the read of
the absent key `'exits_controlled'` would raise `KeyError`, but the branch
cannot run).  `fireExitRoll` models `random.random() < 0.5`.
The conditions handled are `power_status`, `water_status`, `fire_status`;
no modelled call site passes any other condition.
-/
def update_environment (gs : GameState) (condition value : String)
    (fireExitRoll : Bool) : GameState :=
  if condition = "power_status" ∨ condition = "water_status" ∨
      condition = "fire_status" then
    let gs := setEnv gs condition value
    if condition = "power_status" then
      if value = "off" ∧ getEnv gs condition ≠ "off" then
        let gs := { gs with player_resources :=
          (amodMem gs.player_resources "surveillance_cameras"
            (fun v => max 0 (v - 4))) }
        let gs := { gs with player_resources :=
          (amodMem gs.player_resources "communications_equipment"
            (fun v => max 0 (v - 2))) }
        { gs with ai_resources := aset gs.ai_resources "electrical_access" 0 }
      else if value = "on" ∧ getEnv gs condition ≠ "on" then
        let gs := { gs with player_resources :=
          (amodMem gs.player_resources "surveillance_cameras"
            (fun v => min 10 (v + 4))) }
        let gs := { gs with player_resources :=
          (amodMem gs.player_resources "communications_equipment"
            (fun v => min 10 (v + 2))) }
        { gs with ai_resources := aset gs.ai_resources "electrical_access" 1 }
      else gs
    else if condition = "water_status" then
      if value = "off" ∧ getEnv gs condition ≠ "off" then
        let gs := { gs with ai_resources := aset gs.ai_resources "water_access" 0 }
        { gs with hostages_status := (gs.hostages_status.map (fun h =>
            if h.status = "captured" then { h with health := max 10 (h.health - 10) }
            else h)) }
      else if value = "on" ∧ getEnv gs condition ≠ "on" then
        { gs with ai_resources := aset gs.ai_resources "water_access" 1 }
      else gs
    else
      if value ≠ "none" ∧ getEnv gs condition = "none" then
        let gs := { gs with ai_resources :=
          (aset gs.ai_resources "concealment"
            (max 0 (agetD gs.ai_resources "concealment" 0 - 3))) }
        let gs :=
          if fireExitRoll then
            { gs with ai_resources :=
              (aset gs.ai_resources "exits_controlled"
                (max 0 (agetD gs.ai_resources "exits_controlled" 0 - 1))) }
          else gs
        { gs with hostages_status := (gs.hostages_status.map (fun h =>
            if h.status = "captured" then { h with stress := min 100 (h.stress + 20) }
            else h)) }
      else gs
  else gs

/--
Randomness oracle for one call of `update_state_after_action`:
`woundRoll` models `random.random() < 0.3` at the tension-wounding check,
`woundIdx` the `random.choice` among the eligible hostages, `releaseRoll`
models `random.random() < 0.2` at the negotiation-release check,
`releaseIdx` its `random.choice`, `forceLossRoll` `random.random() < 0.3`
(AI personnel loss on successful force), `failLossRoll`
`random.random() < 0.4` (tactical-team loss on failed force).
-/
structure UsaRand where
  woundRoll : Bool := false
  woundIdx : ℕ := 0
  releaseRoll : Bool := false
  releaseIdx : ℕ := 0
  forceLossRoll : Bool := false
  failLossRoll : Bool := false
  deriving Repr, DecidableEq

/-- `random.choice(l)` for nonempty `l`, with the draw modelled as an
arbitrary index (reduced mod the length); `none` only for empty `l`. -/
def pickIdx (l : List Hostage) (k : ℕ) : Option Hostage := l.get? (k % l.length)

/-- The success/failure category baseline metric shifts of
`update_state_after_action` (`game_state.py` lines 594-615).  The caller
passes `self.category.value`, a capitalized string such as `"Dialogue"`,
so the uppercase comparisons never match for catalog actions; they are
translated verbatim. -/
def usaMetricStage (gs : GameState) (category : String) (success : Bool) :
    GameState :=
  if success then
    if category = "DIALOGUE" then
      modify_tension (modify_trust gs (1/10)) (-(5/100))
    else if category = "FORCE" then
      modify_tension (modify_trust gs (-(1/10))) (15/100)
    else if category = "TECH" then
      modify_tension (modify_morale gs (15/100)) (-(1/10))
    else if category = "NEGOTIATION" then
      modify_tension (modify_trust gs (15/100)) (-(1/10))
    else if category = "RESOURCES" then
      modify_morale gs (1/10)
    else if category = "THREATS" then
      modify_tension (modify_trust gs (-(1/10))) (2/10)
    else gs
  else
    modify_tension gs (15/100)

/-- The tactical-position updates of `update_state_after_action`
(`game_state.py` lines 617-623). -/
def usaTacticalStage (gs : GameState) (action_name : String)
    (success : Bool) : GameState :=
  if action_name = "Position Snipers" ∧ success then
    { gs with tactical_positions := bset gs.tactical_positions "sniper_positions" true }
  else if action_name = "Surveillance Deployment" ∧ success then
    { gs with tactical_positions := bset gs.tactical_positions "surveillance" true }
  else if action_name = "Deploy Breach Team" ∧ success then
    { gs with tactical_positions := bset gs.tactical_positions "breach_points" true }
  else gs

/-- The tension-driven hostage wounding of `update_state_after_action`
(`game_state.py` lines 625-632): with tension at or above 0.8 and a 30%
roll, a random captured full-health hostage is wounded — a call that
raises `AttributeError` (see `update_hostage_status`). -/
def usaWoundStage (gs : GameState) (r : UsaRand) : Except String GameState :=
  if gs.tension_level ≥ 8/10 ∧ r.woundRoll = true then
    let avail := gs.hostages_status.filter fun h =>
      h.status = "captured" ∧ h.health = 100
    match pickIdx avail r.woundIdx with
    | some h => update_hostage_status gs h.id
        { health := some 50, status := some "wounded" }
    | none => pure gs
  else pure gs

/-- The deadline extension of `update_state_after_action`
(`game_state.py` lines 634-636). -/
def usaDeadlineStage (gs : GameState) (category : String) (success : Bool) :
    GameState :=
  if category = "NEGOTIATION" ∧ success then
    { gs with hostage_deadline := gs.hostage_deadline + 1 }
  else gs

/-- The hostage-taker state updates of `update_state_after_action`
(`game_state.py` lines 638-663). -/
def usaHTStage (gs : GameState) (category : String) (success : Bool)
    (r : UsaRand) : Except String GameState :=
  if success then
    if category = "FORCE" then
      let gs := { gs with
        hostage_taker_morale := gs.hostage_taker_morale - 1/10
        hostage_taker_aggression := gs.hostage_taker_aggression + 2/10 }
      pure (if r.forceLossRoll then modify_ai_personnel gs "armed_members" (-1)
            else gs)
    else if category = "NEGOTIATION" then
      if gs.trust_level > 6/10 then
        let gs := { gs with
          hostage_taker_morale := gs.hostage_taker_morale - 5/100
          demands_urgency := gs.demands_urgency - 1/10 }
        if r.releaseRoll then
          let avail := gs.hostages_status.filter fun h => h.status = "captured"
          match pickIdx avail r.releaseIdx with
          | some h => update_hostage_status gs h.id { status := some "released" }
          | none => pure gs
        else pure gs
      else pure gs
    else pure gs
  else
    pure (if category = "FORCE" ∧ r.failLossRoll then
            modify_player_personnel gs "tactical_team" (-1)
          else gs)

/--
`GameState.update_state_after_action` (`game_state.py` lines 585-666),
composed from the stage functions above in source order.
`track_player_action` mutates only the (unmodelled) AI-opponent object, so
it does not appear.  The wounding path calls `update_hostage_status` with
`status='wounded'`, which raises `AttributeError` when `hostages_wounded`
is undefined; the error propagates through the `Except` monad.
-/
def update_state_after_action (gs : GameState) (action_name category : String)
    (success : Bool) (r : UsaRand) : Except String GameState := do
  let gs := { gs with last_action_category := some category
                      last_action_success := some success }
  let gs := usaMetricStage gs category success
  let gs := usaTacticalStage gs action_name success
  let gs ← usaWoundStage gs r
  let gs := usaDeadlineStage gs category success
  let gs ← usaHTStage gs category success r
  pure (check_game_over gs).1

/-- `ActionCategory` enum of `dialogue_system.py`. -/
inductive ActionCategory
  | DIALOGUE | RESOURCES | FORCE | TECH | NEGOTIATION | THREATS
  deriving Repr, DecidableEq

/-- The `.value` strings of `ActionCategory`: capitalized words, not the
uppercase names. -/
def ActionCategory.value : ActionCategory → String
  | .DIALOGUE => "Dialogue"
  | .RESOURCES => "Resources"
  | .FORCE => "Force"
  | .TECH => "Tech"
  | .NEGOTIATION => "Negotiation"
  | .THREATS => "Threats"

/-- `ActionEffect` enum of `dialogue_system.py`. -/
inductive ActionEffect
  | STRESS_INCREASE | STRESS_DECREASE | TRUST_INCREASE | TRUST_DECREASE
  | MORALE_INCREASE | MORALE_DECREASE | TENSION_INCREASE | TENSION_DECREASE
  | HOSTAGE_RELEASE | DEMAND_ACCEPTED | INTEL_GAINED | THREAT_ESCALATION
  | RESOURCE_GAIN | RESOURCE_LOSS | TACTICAL_ADVANTAGE | TACTICAL_DISADVANTAGE
  | EXTRA_ACTION_POINTS | DISABLE_COMMUNICATIONS | MASS_PANIC | INSIDER_INTEL
  | MEDIA_MANIPULATION | CYBER_ADVANTAGE
  deriving Repr, DecidableEq

/--
One consequence record as built by `GameAction.add_consequence`
(`dialogue_system.py`): a dict with a `type` key and kind-specific keys.
Optional keys carry the defaults the interpreter reads with `.get`:
`probability` 1.0, `on_critical_failure` `False`, `count` 1,
`required_status` `'captured'`.  The keys `description`,
`critical_success_modifier` and `critical_failure_modifier` are never set
by any action in the repository, so the corresponding `.get` reads always
take their defaults and are folded into the translation.
-/
inductive Consequence
  | environmental (condition value : String) (on_critical_failure : Bool)
      (probability : ℚ)
  | hostage (effect : String) (count : ℕ) (required_status : String)
      (on_critical_failure : Bool) (probability : ℚ)
  | ai_personnel (personnel_type : String) (amount : ℤ) (probability : ℚ)
  | resource (resource_type : String) (amount : ℤ) (probability : ℚ)
  | ai_resource (resource_type : String) (amount : ℤ) (probability : ℚ)
  | tactical (position : String) (value : Bool) (probability : ℚ)
  | deadline (amount : ℤ) (probability : ℚ)
  | pub (public_type : String) (amount : ℤ) (probability : ℚ)
  deriving Repr, DecidableEq

/-- `GameAction` (`dialogue_system.py` lines 59-81); fields read by the
modelled code paths. -/
structure GameAction where
  name : String
  category : ActionCategory
  action_points : ℤ
  description : String := ""
  base_success_chance : ℚ := 8/10
  effects : List ActionEffect := []
  consequences : List Consequence := []
  resource_cost : AListZ := []
  personnel_cost : AListZ := []
  critical_threshold : ℚ := 5/100
  is_special : Bool := false
  special_level : ℤ := 0
  deriving Repr, DecidableEq

/-- `GameAction.update_success_chance`: `game_state.GameState` always has
the attribute `get_dynamic_success_chance`, so the `hasattr` fallback
never runs; the chance is recomputed from the base chance. -/
def update_success_chance (a : GameAction) (gs : GameState) : ℚ :=
  get_dynamic_success_chance gs a.category.value a.base_success_chance

/-- `GameAction._apply_costs`. -/
def apply_costs (a : GameAction) (gs : GameState) : GameState :=
  let gs := a.resource_cost.foldl
    (fun gs p => modify_player_resource gs p.1 (-p.2)) gs
  a.personnel_cost.foldl
    (fun gs p => modify_player_personnel gs p.1 (-p.2)) gs

/-- Randomness oracle for one consequence in `_apply_consequences`:
`probOk` models the event `random.random() <= probability` (the source
skips the consequence when `random.random() > probability`), `picks` the
successive `random.choice` indices of a hostage effect, `fireExitRoll`
the roll inside `update_environment`. -/
structure ConsRand where
  probOk : Bool := true
  picks : List ℕ := []
  fireExitRoll : Bool := false
  deriving Repr, DecidableEq

/-- The outcome scaling applied to `resource` / `ai_resource` consequence
amounts in `_apply_consequences` (`dialogue_system.py` lines 220-224 and
240-244): `amount = int(amount * 1.5)` on critical success,
`amount = int(amount * 0.5)` on critical failure, unchanged otherwise. -/
def scaleAmount (critical_success critical_failure : Bool) (amount : ℤ) : ℤ :=
  if critical_success then pyInt ((amount : ℚ) * (15/10))
  else if critical_failure then pyInt ((amount : ℚ) * (5/10))
  else amount

/--
The hostage-effect loop of `_apply_consequences` (lines 182-200): at most
`n = min(count, len(applicable))` iterations, each choosing a hostage from
the remaining applicable list, removing it (`list.remove`, first equal
element), and updating the game state; the description of the last applied
effect is kept (`description` is overwritten each iteration).
-/
def hostageLoop (gs : GameState) (effect : String) (avail : List Hostage)
    (n : ℕ) (picks : List ℕ) (desc : Option String) :
    Except String (Option String × GameState) :=
  match n with
  | 0 => pure (desc, gs)
  | n + 1 =>
    match pickIdx avail (picks.headD 0) with
    | none => pure (desc, gs)
    | some h =>
      let avail' := avail.erase h
      if effect = "release" then do
        let gs ← update_hostage_status gs h.id { status := some "released" }
        hostageLoop gs effect avail' n picks.tail
          (some ("Hostage " ++ h.name ++ " was released"))
      else if effect = "wound" then do
        let gs ← update_hostage_status gs h.id
          { status := some "wounded", health := some (max (h.health - 50) 10) }
        hostageLoop gs effect avail' n picks.tail
          (some ("Hostage " ++ h.name ++ " was wounded"))
      else if effect = "kill" then do
        let gs ← update_hostage_status gs h.id
          { status := some "killed", health := some 0 }
        hostageLoop gs effect avail' n picks.tail
          (some ("Hostage " ++ h.name ++ " was killed"))
      else
        hostageLoop gs effect avail' n picks.tail desc

/--
`GameAction._apply_consequences` (`dialogue_system.py` lines 143-303),
over the list `self.consequences` (one `ConsRand` per consequence,
defaults used when the oracle list is short).  Returns the accumulated
description strings and the final state.
-/
def applyConsequences (cons : List Consequence) (gs : GameState)
    (success critical_success critical_failure : Bool)
    (rands : List ConsRand) : Except String (List String × GameState) :=
  match cons with
  | [] => pure ([], gs)
  | c :: rest => do
    let cr := rands.headD {}
    let (dOpt, gs) ←
      if cr.probOk = false then pure ((none : Option String), gs)
      else
        match c with
        | .environmental condition value ocf _p =>
          if success = true ∨ (critical_failure = true ∧ ocf = true) then
            let gs := update_environment gs condition value cr.fireExitRoll
            pure (some ("Environment changed: " ++ condition ++ " is now " ++
              value), gs)
          else pure (none, gs)
        | .hostage effect count required_status ocf _p =>
          if success = true ∨ (critical_failure = true ∧ ocf = true) then
            let avail := gs.hostages_status.filter fun h =>
              h.status = required_status
            hostageLoop gs effect avail (min count avail.length) cr.picks none
          else pure (none, gs)
        | .ai_personnel ptype amount _p =>
          if success = true then
            let gs := modify_ai_personnel gs ptype amount
            if amount < 0 then
              pure (some ("Enemy lost " ++ toString (-amount) ++ " " ++ ptype), gs)
            else
              pure (some ("Enemy gained " ++ toString amount ++ " " ++ ptype), gs)
          else pure (none, gs)
        | .resource rtype amount _p =>
          if success = true then
            let amount := scaleAmount critical_success critical_failure amount
            let gs := modify_player_resource gs rtype amount
            if amount > 0 then
              pure (some ("Gained " ++ toString amount ++ " " ++ rtype), gs)
            else
              pure (some ("Lost " ++ toString (-amount) ++ " " ++ rtype), gs)
          else pure (none, gs)
        | .ai_resource rtype amount _p =>
          if success = true then
            let amount := scaleAmount critical_success critical_failure amount
            let gs := modify_ai_resource gs rtype amount
            if amount < 0 then
              pure (some ("Reduced enemy " ++ rtype ++ " by " ++
                toString (-amount)), gs)
            else
              pure (some ("Enemy gained " ++ toString amount ++ " " ++ rtype), gs)
          else pure (none, gs)
        | .tactical position value _p =>
          if success = true then
            let gs := set_tactical_position gs position value
            pure (some ("Secured tactical position: " ++ position), gs)
          else pure (none, gs)
        | .deadline amount _p =>
          if success = true then
            let gs := { gs with hostage_deadline := gs.hostage_deadline + amount }
            if amount > 0 then
              pure (some ("Extended deadline by " ++ toString amount ++ " turns"), gs)
            else
              pure (some ("Deadline reduced by " ++ toString (-amount) ++ " turns"), gs)
          else pure (none, gs)
        | .pub ptype amount _p =>
          if success = true then
            if ptype = "media_control" then
              let current := agetD gs.player_resources "media_control" 0
              let gs := { gs with player_resources :=
                (aset gs.player_resources "media_control"
                  (max 0 (min 100 (current + amount)))) }
              pure (some ("Media control " ++ toString amount ++ "%"), gs)
            else if ptype = "public_support" then
              let current := agetD gs.player_resources "public_support" 0
              let gs := { gs with player_resources :=
                (aset gs.player_resources "public_support"
                  (max 0 (min 10 (current + amount)))) }
              pure (some ("Public support " ++ toString amount), gs)
            else if ptype = "political_influence" then
              let current := agetD gs.player_resources "political_influence" 0
              let gs := { gs with player_resources :=
                (aset gs.player_resources "political_influence"
                  (max 0 (min 10 (current + amount)))) }
              pure (some ("Political influence " ++ toString amount), gs)
            else pure (none, gs)
          else pure (none, gs)
    let (ds, gs) ← applyConsequences rest gs success critical_success
      critical_failure rands.tail
    pure (dOpt.toList ++ ds, gs)

/-- The result dict of `GameAction.perform` / `ActionSystem.perform_action`.
`partialSuccess` models the `partial_success` key; `message` / `messages`
are the keys `perform_action` adds afterwards.  A validation rejection is
a dict with only `success` and `message`; the remaining fields keep their
defaults in that case. -/
structure ActionResult where
  action_name : String := ""
  category : String := ""
  success : Bool
  critical_success : Bool := false
  critical_failure : Bool := false
  partialSuccess : Bool := false
  roll : ℚ := 0
  target : ℚ := 0
  consequences : List String := []
  message : Option String := none
  messages : List String := []
  deriving Repr, DecidableEq

/--
`GameAction.perform` (`dialogue_system.py` lines 93-131): recompute the
success chance, classify the roll, add a cooldown for expensive or
critical outcomes, run `update_state_after_action`, apply costs, apply
consequences.  `roll` models `random.random()`.
-/
def performGA (a : GameAction) (gs : GameState) (roll : ℚ) (ur : UsaRand)
    (crs : List ConsRand) : Except String (ActionResult × GameState) := do
  let chance := update_success_chance a gs
  let success : Bool := decide (roll < chance)
  let critical_success : Bool := success && decide (roll < chance * a.critical_threshold)
  let critical_failure : Bool := !success && decide (roll > 1 - a.critical_threshold)
  let partialOut : Bool := success && decide (roll > chance - 1/10)
  let gs :=
    if a.action_points ≥ 3 ∨ critical_success = true ∨ critical_failure = true then
      add_action_cooldown gs a.name 3
    else gs
  let gs ← update_state_after_action gs a.name a.category.value success ur
  let gs := apply_costs a gs
  let (descs, gs) ← applyConsequences a.consequences gs success
    critical_success critical_failure crs
  pure ({ action_name := a.name, category := a.category.value,
          success := success, critical_success := critical_success,
          critical_failure := critical_failure, partialSuccess := partialOut,
          roll := roll, target := chance, consequences := descs }, gs)

/-- `ActionSystem._get_game_stage` with the `turn_thresholds` of
`ActionSystem.__init__` (early ≤ 5, mid ≤ 12, late otherwise). -/
def get_game_stage (turn : ℤ) : String :=
  if turn ≤ 5 then "early_game" else if turn ≤ 12 then "mid_game"
  else "late_game"

/-- Randomness oracle for one `_apply_effect` call. -/
structure EffRand where
  picks : List ℕ := []
  tacticalIdx : ℕ := 0
  deriving Repr, DecidableEq

/-- The release loop of `_apply_effect`'s `HOSTAGE_RELEASE` case; the
message of the last released hostage is kept. -/
def effReleaseLoop (gs : GameState) (avail : List Hostage) (n : ℕ)
    (picks : List ℕ) (msg : Option String) :
    Except String (Option String × GameState) :=
  match n with
  | 0 => pure (msg, gs)
  | n + 1 =>
    match pickIdx avail (picks.headD 0) with
    | none => pure (msg, gs)
    | some h => do
      let gs ← update_hostage_status gs h.id { status := some "released" }
      effReleaseLoop gs (avail.erase h) n picks.tail
        (some ("Hostage " ++ h.name ++ " released"))

/--
`DialogueSystem`/`ActionSystem._apply_effect` (`dialogue_system.py` lines
1133-1185): metric shifts scaled by the multiplier, hostage release,
resource gain, tactical advantage, extra action points; every other
effect value falls through with no state change.  Message strings are
modelled without the Python numeric `:.2f` formatting.
-/
def apply_effect (eff : ActionEffect) (gs : GameState) (multiplier : ℚ)
    (er : EffRand) : Except String (Option String × GameState) :=
  match eff with
  | .TRUST_INCREASE =>
    pure (some "Trust increased", modify_trust gs (1/10 * multiplier))
  | .TRUST_DECREASE =>
    pure (some "Trust decreased", modify_trust gs (-(1/10) * multiplier))
  | .TENSION_INCREASE =>
    pure (some "Tension increased", modify_tension gs (1/10 * multiplier))
  | .TENSION_DECREASE =>
    pure (some "Tension decreased", modify_tension gs (-(1/10) * multiplier))
  | .MORALE_INCREASE =>
    pure (some "Morale increased", modify_morale gs (1/10 * multiplier))
  | .MORALE_DECREASE =>
    pure (some "Morale decreased", modify_morale gs (-(1/10) * multiplier))
  | .HOSTAGE_RELEASE =>
    let releaseCount := max 1 (pyInt (1 * multiplier))
    let avail := gs.hostages_status.filter fun h => h.status = "captured"
    effReleaseLoop gs avail (min releaseCount.toNat avail.length) er.picks none
  | .RESOURCE_GAIN =>
    let amount := pyInt (1 * multiplier)
    pure (some ("Gained " ++ toString amount ++ " intelligence"),
      modify_player_resource gs "intelligence" amount)
  | .TACTICAL_ADVANTAGE =>
    let inactive := gs.tactical_positions.filter fun p => p.2 = false
    match inactive.get? (er.tacticalIdx % inactive.length) with
    | some p =>
      pure (some ("Gained tactical advantage: " ++ p.1),
        set_tactical_position gs p.1 true)
    | none => pure (none, gs)
  | .EXTRA_ACTION_POINTS =>
    let extra := max 1 (pyInt (1 * multiplier))
    pure (some ("Gained " ++ toString extra ++ " extra action points for next turn"),
      { gs with next_turn_extra_ap := gs.next_turn_extra_ap + extra })
  | _ => pure (none, gs)

/-- The effects loop of `perform_action` (lines 1109-1112): apply each
effect in order, collecting the messages. -/
def applyEffects (effs : List ActionEffect) (gs : GameState) (em : ℚ)
    (ers : List EffRand) : Except String (List String × GameState) :=
  match effs with
  | [] => pure ([], gs)
  | e :: rest => do
    let (mOpt, gs) ← apply_effect e gs em (ers.headD {})
    let (ms, gs) ← applyEffects rest gs em ers.tail
    pure (mOpt.toList ++ ms, gs)

/--
`ActionSystem.perform_action` (`dialogue_system.py` lines 1045-1122):
validate action points, then cooldown (each rejection returns a
`success=False` dict with a message and the state untouched); otherwise
run `GameAction.perform`, deduct the action-point cost, and apply the
stage/critical-scaled category effects (whose uppercase category
comparisons never match `ActionCategory.value` strings) or the failure
tension increase (+0.22 on critical failure, +0.15 otherwise).
-/
def perform_action (gs : GameState) (a : GameAction) (roll : ℚ)
    (ur : UsaRand) (crs : List ConsRand) (ers : List EffRand) :
    Except String (ActionResult × GameState) :=
  if gs.action_points < a.action_points then
    .ok ({ success := false, message := some "Not enough action points." }, gs)
  else if is_action_on_cooldown gs a.name then
    .ok ({ success := false,
           message := some ("Action " ++ a.name ++ " is on cooldown.") }, gs)
  else do
    let (result, gs) ← performGA a gs roll ur crs
    let gs := { gs with action_points := gs.action_points - a.action_points }
    let stage := get_game_stage gs.turn
    if result.success then
      let em : ℚ :=
        if stage = "early_game" then 1/2
        else if stage = "mid_game" then 1
        else if stage = "late_game" then 3/2
        else 1
      let em := if result.critical_success then em * (3/2)
        else if result.partialSuccess then em * (1/2) else em
      let category := a.category.value
      let gs :=
        if category = "DIALOGUE" then
          modify_tension (modify_trust gs (1/10 * em)) (-(5/100) * em)
        else if category = "FORCE" then
          modify_tension (modify_trust gs (-(1/10) * em)) (15/100 * em)
        else if category = "TECH" then
          modify_tension (modify_morale gs (15/100 * em)) (-(1/10) * em)
        else if category = "NEGOTIATION" then
          modify_tension (modify_trust gs (15/100 * em)) (-(1/10) * em)
        else if category = "RESOURCES" then
          modify_morale gs (1/10 * em)
        else if category = "THREATS" then
          modify_tension (modify_trust gs (-(1/10) * em)) (2/10 * em)
        else gs
      let (msgs, gs) ← applyEffects a.effects gs em ers
      pure ({ result with messages := msgs }, gs)
    else
      if result.critical_failure then
        pure ({ result with
                message := some ("Critical failure on " ++ a.name ++ "!") },
          modify_tension gs (22/100))
      else
        pure ({ result with
                message := some ("Failed to perform " ++ a.name ++ ".") },
          modify_tension gs (15/100))

/-- `dialogue_action1` of `ActionSystem._initialize_actions`
(`dialogue_system.py` lines 753-761). -/
def openCommunication : GameAction where
  name := "Open Communication"
  description := "Establish contact with hostage takers"
  category := .DIALOGUE
  action_points := 1
  base_success_chance := 85/100
  consequences :=
    [.resource "intelligence" 1 1, .pub "media_control" 5 1]

/-- `force_action1` of `ActionSystem._initialize_actions`
(`dialogue_system.py` lines 846-856). -/
def positionSnipers : GameAction where
  name := "Position Snipers"
  description := "Set up sniper positions for tactical advantage"
  category := .FORCE
  action_points := 3
  base_success_chance := 70/100
  personnel_cost := [("snipers", 2)]
  resource_cost := [("tactical_gear", 1)]
  consequences :=
    [.tactical "sniper_positions" true 1, .ai_resource "concealment" (-2) 1]

/-- The four fields of interest to claims C3/C6 are preserved. -/
def Pres4 (a b : GameState) : Prop :=
  b.action_points = a.action_points ∧ b.trust_level = a.trust_level ∧
  b.tension_level = a.tension_level ∧ b.morale_level = a.morale_level

/-! ### C9: the hostage-status transition system

Every status-changing call of `update_hostage_status` in the repository
selects its victim from a pool filtered on the current status — always
`'captured'`: the consequence interpreter uses
`consequence.get('required_status', 'captured')` and every catalog
consequence either omits the key or sets `'captured'`; the
`update_state_after_action` wounding/release paths and
`_apply_effect`'s `HOSTAGE_RELEASE` filter on `'captured'`; the AI
opponent's wounding (health-only) and kill paths filter on `'captured'`.
The remaining hostage-touching code (`end_turn` deterioration and the
`update_environment` water/fire branches) changes health/stress only.
Each operation below is one such call, with the `random.choice` index as
parameter; `update_hostage_status_raw` keeps the partial mutation Python
performs even when the wounded-counter `AttributeError` is raised.
-/

/-- One hostage-touching core operation (see the section comment for the
source location of each constructor). -/
inductive HostageOp
  | consRelease (k : ℕ)
  | consWound (k : ℕ)
  | consKill (k : ℕ)
  | usaWound (k : ℕ)
  | usaRelease (k : ℕ)
  | effRelease (k : ℕ)
  | aiWoundHealth (k : ℕ)
  | aiKill (k : ℕ)
  | endTurnDecay (rolls : List Bool)
  | waterDeprivation
  | fireStress
  deriving Repr, DecidableEq

/-- Choose the `k`-th hostage of the filtered pool, as the call sites do
(`random.choice` over the filtered list; `none` when the pool is empty,
matching the `if available_hostages:` guards). -/
def pickFiltered (gs : GameState) (p : Hostage → Bool) (k : ℕ) :
    Option Hostage :=
  pickIdx (gs.hostages_status.filter p) k

/-- Select from the filtered pool and apply a status update through
`update_hostage_status_raw` (keeping the partially mutated state if the
wounded counter raises). -/
def pickUpdate (gs : GameState) (p : Hostage → Bool) (k : ℕ)
    (u : Hostage → StatusUpdate) : GameState :=
  match pickFiltered gs p k with
  | some h => (update_hostage_status_raw gs h.id (u h)).1
  | none => gs

/-- One step of the `end_turn` hostage deterioration: stress +5 for a
captured hostage, and a possible health loss when stress exceeds 90
(`roll` models `random.random() < 0.2`). -/
def decayOne (roll : Bool) (h : Hostage) : Hostage :=
  if h.status = "captured" then
    let h := { h with stress := min 100 (h.stress + 5) }
    if h.stress > 90 ∧ roll then { h with health := max 10 (h.health - 5) }
    else h
  else h

/-- The `end_turn` deterioration loop over the roster. -/
def decayList : List Hostage → List Bool → List Hostage
  | [], _ => []
  | h :: t, rolls => decayOne (rolls.headD false) h :: decayList t rolls.tail

/-- Semantics of one hostage-touching operation. -/
def applyHostageOp (gs : GameState) : HostageOp → GameState
  | .consRelease k =>
    pickUpdate gs (fun h => h.status = "captured") k
      (fun _ => { status := some "released" })
  | .consWound k =>
    pickUpdate gs (fun h => h.status = "captured") k
      (fun h => { status := some "wounded", health := some (max (h.health - 50) 10) })
  | .consKill k =>
    pickUpdate gs (fun h => h.status = "captured") k
      (fun _ => { status := some "killed", health := some 0 })
  | .usaWound k =>
    pickUpdate gs (fun h => h.status = "captured" ∧ h.health = 100) k
      (fun _ => { health := some 50, status := some "wounded" })
  | .usaRelease k =>
    pickUpdate gs (fun h => h.status = "captured") k
      (fun _ => { status := some "released" })
  | .effRelease k =>
    pickUpdate gs (fun h => h.status = "captured") k
      (fun _ => { status := some "released" })
  | .aiWoundHealth k =>
    pickUpdate gs (fun h => h.status = "captured" ∧ h.health > 50) k
      (fun h => { health := some (max 10 (h.health - 40)) })
  | .aiKill k =>
    pickUpdate gs (fun h => h.status = "captured") k
      (fun _ => { status := some "killed", health := some 0 })
  | .endTurnDecay rolls =>
    { gs with hostages_status := decayList gs.hostages_status rolls }
  | .waterDeprivation =>
    { gs with hostages_status := (gs.hostages_status.map (fun h =>
        if h.status = "captured" then { h with health := max 10 (h.health - 10) }
        else h)) }
  | .fireStress =>
    { gs with hostages_status := (gs.hostages_status.map (fun h =>
        if h.status = "captured" then { h with stress := min 100 (h.stress + 20) }
        else h)) }

/-- A sequence of hostage-touching operations. -/
def applyHostageOps (gs : GameState) (ops : List HostageOp) : GameState :=
  ops.foldl applyHostageOp gs

/-- The status of the hostage at a roster position. -/
def statusAtPos (gs : GameState) (j : ℕ) : Option String :=
  (gs.hostages_status.get? j).map Hostage.status

/-! ### The seven core mutators of claim C1, closed under sequencing -/

/-- One invocation of a state-mutating core operation
(`modify_trust`, `modify_tension`, `modify_morale`,
`modify_player_resource`, `modify_ai_resource`, `modify_player_personnel`,
`modify_ai_personnel`), with its input amount. -/
inductive CoreOp
  | trust (amount : ℚ)
  | tension (amount : ℚ)
  | morale (amount : ℚ)
  | presource (resource : String) (amount : ℤ)
  | airesource (resource : String) (amount : ℤ)
  | ppersonnel (ptype : String) (amount : ℤ)
  | aipersonnel (ptype : String) (amount : ℤ)
  deriving Repr, DecidableEq

/-- Dispatch a `CoreOp` to the corresponding mutator. -/
def applyCoreOp (gs : GameState) : CoreOp → GameState
  | .trust a => modify_trust gs a
  | .tension a => modify_tension gs a
  | .morale a => modify_morale gs a
  | .presource r a => modify_player_resource gs r a
  | .airesource r a => modify_ai_resource gs r a
  | .ppersonnel p a => modify_player_personnel gs p a
  | .aipersonnel p a => modify_ai_personnel gs p a

/-- A sequence of core mutators applied in order (any consequence
application is a sequence of these as far as metrics/resources go). -/
def applyCoreOps (gs : GameState) (ops : List CoreOp) : GameState :=
  ops.foldl applyCoreOp gs

/-- Every value of the dict is nonnegative. -/
def nonnegA (l : AListZ) : Prop := ∀ p ∈ l, 0 ≤ p.2

instance (l : AListZ) : Decidable (nonnegA l) := List.decidableBAll _ l

/-- The invariant of claim C1: the three metrics lie in `[0, 1]` and all
resource/personnel counts are nonnegative. -/
def CoreInv (gs : GameState) : Prop :=
  0 ≤ gs.trust_level ∧ gs.trust_level ≤ 1 ∧
  0 ≤ gs.tension_level ∧ gs.tension_level ≤ 1 ∧
  0 ≤ gs.morale_level ∧ gs.morale_level ≤ 1 ∧
  nonnegA gs.player_resources ∧ nonnegA gs.ai_resources ∧
  nonnegA gs.player_personnel ∧ nonnegA gs.ai_personnel

instance (gs : GameState) : Decidable (CoreInv gs) := by
  unfold CoreInv; infer_instance

/-! ### Helper lemmas -/

theorem clamp01_nonneg (x : ℚ) : 0 ≤ clamp01 x := le_max_left 0 _

theorem clamp01_le_one (x : ℚ) : clamp01 x ≤ 1 :=
  max_le zero_le_one (min_le_left 1 x)

theorem nonnegA_amodMem (l : AListZ) (k : String) (f : ℤ → ℤ)
    (hf : ∀ v, 0 ≤ f v) : nonnegA l → nonnegA (amodMem l k f) := by
  induction l with
  | nil => intro h; simp [amodMem, nonnegA]
  | cons p t ih =>
    obtain ⟨k', v⟩ := p
    intro hl
    unfold nonnegA at hl ⊢
    simp only [amodMem]
    split
    · intro q hq
      rcases List.mem_cons.mp hq with h | h
      · cases h; exact hf v
      · exact hl q (List.mem_cons_of_mem _ h)
    · intro q hq
      rcases List.mem_cons.mp hq with h | h
      · cases h; exact hl _ (List.mem_cons_self _ _)
      · exact ih (fun r hr => hl r (List.mem_cons_of_mem _ hr)) q h

theorem coreOp_preserves (gs : GameState) (op : CoreOp) (h : CoreInv gs) :
    CoreInv (applyCoreOp gs op) := by
  obtain ⟨h1, h2, h3, h4, h5, h6, h7, h8, h9, h10⟩ := h
  cases op with
  | trust a =>
    exact ⟨clamp01_nonneg _, clamp01_le_one _, h3, h4, h5, h6, h7, h8, h9, h10⟩
  | tension a =>
    exact ⟨h1, h2, clamp01_nonneg _, clamp01_le_one _, h5, h6, h7, h8, h9, h10⟩
  | morale a =>
    exact ⟨h1, h2, h3, h4, clamp01_nonneg _, clamp01_le_one _, h7, h8, h9, h10⟩
  | presource r a =>
    exact ⟨h1, h2, h3, h4, h5, h6,
      nonnegA_amodMem _ _ _ (fun v => le_max_left 0 _) h7, h8, h9, h10⟩
  | airesource r a =>
    exact ⟨h1, h2, h3, h4, h5, h6, h7,
      nonnegA_amodMem _ _ _ (fun v => le_max_left 0 _) h8, h9, h10⟩
  | ppersonnel p a =>
    exact ⟨h1, h2, h3, h4, h5, h6, h7, h8,
      nonnegA_amodMem _ _ _ (fun v => le_max_left 0 _) h9, h10⟩
  | aipersonnel p a =>
    exact ⟨h1, h2, h3, h4, h5, h6, h7, h8, h9,
      nonnegA_amodMem _ _ _ (fun v => le_max_left 0 _) h10⟩

/-- The C1 invariant holds at the initial state. -/
theorem coreInv_initState : CoreInv (initState .FBI) := by
  refine ⟨?_, ?_, ?_, ?_, ?_, ?_, ?_, ?_, ?_, ?_⟩ <;>
    first
      | decide
      | norm_num [initState]

/--
**C1.**  Every state-mutating core operation (`modify_trust`,
`modify_tension`, `modify_morale`, `modify_player_resource`,
`modify_ai_resource`, `modify_player_personnel`, `modify_ai_personnel`)
and every sequence of such operations preserves the invariant:
`trust_level`, `tension_level`, `morale_level` stay in `[0, 1]` and every
resource/personnel count stays `≥ 0`, for every input amount.
-/
theorem C1_clamping_invariant (ops : List CoreOp) (gs : GameState)
    (h : CoreInv gs) : CoreInv (applyCoreOps gs ops) := by
  induction ops generalizing gs with
  | nil => exact h
  | cons op rest ih => exact ih _ (coreOp_preserves gs op h)

/-- Witness for C1: the invariant holds at the initial state and after a
concrete sequence with large negative amounts. -/
theorem C1_clamping_invariant_witness :
    CoreInv (initState .FBI) ∧
    CoreInv (applyCoreOps (initState .FBI)
      [.trust (-5), .tension 7, .morale (-(3/2)), .presource "manpower" (-100),
       .airesource "concealment" (-50), .ppersonnel "negotiators" (-9),
       .aipersonnel "armed_members" (-7)]) :=
  ⟨coreInv_initState, C1_clamping_invariant _ _ coreInv_initState⟩

/--
**C2.**  `get_dynamic_success_chance` returns a value in `[0.10, 0.95]`
for every game state (any combination of trust, tension, morale,
last-action synergy and environmental conditions), every category string
and every base chance.  (In this embedding the function is pure by
construction, mirroring the Python method, which only reads state, so
mutation-freedom and determinism hold definitionally.)
-/
theorem C2_probability_bound (gs : GameState) (action_category : String)
    (base_chance : ℚ) :
    1/10 ≤ get_dynamic_success_chance gs action_category base_chance ∧
    get_dynamic_success_chance gs action_category base_chance ≤ 95/100 :=
  ⟨le_max_left _ _, max_le (by norm_num) (min_le_left _ _)⟩

/-- Witness for C2 at a concrete input (the hypotheses are only the
universally quantified arguments; evaluated at the initial state). -/
theorem C2_probability_bound_witness :
    1/10 ≤ get_dynamic_success_chance (initState .FBI) "Negotiation" (1/2) ∧
    get_dynamic_success_chance (initState .FBI) "Negotiation" (1/2) ≤ 95/100 :=
  C2_probability_bound (initState .FBI) "Negotiation" (1/2)

/--
**C5.**  Whenever `check_game_over` runs on a state whose
`hostages_released` equals `total_hostages`, it sets `game_over := True`
and `victory := True` and returns `True` — unconditionally on every other
field, so in particular even when a defeat condition (tension at 1.0,
more than 3 hostages killed, turn past `max_turns`, expired deadline)
holds at the same time: the victory checks come first in the chain.
-/
theorem C5_victory_priority (gs : GameState)
    (h : gs.hostages_released = gs.total_hostages) :
    (check_game_over gs).1.game_over = true ∧
    (check_game_over gs).1.victory = true ∧
    (check_game_over gs).2 = true := by
  unfold check_game_over
  rw [if_pos h]
  exact ⟨rfl, rfl, rfl⟩

/-- Witness for C5: a state satisfying the victory condition and,
simultaneously, three defeat conditions (tension 1.0, turn past
`max_turns`, expired deadline with unmet demands). -/
theorem C5_victory_priority_witness :
    ({ initState .FBI with hostages_released := 10, tension_level := 1, turn := 99, hostage_deadline := 0 } : GameState).hostages_released = ({ initState .FBI with hostages_released := 10, tension_level := 1, turn := 99, hostage_deadline := 0 } : GameState).total_hostages ∧
    (check_game_over { initState .FBI with hostages_released := 10, tension_level := 1, turn := 99, hostage_deadline := 0 }).1.game_over = true ∧
    (check_game_over { initState .FBI with hostages_released := 10, tension_level := 1, turn := 99, hostage_deadline := 0 }).1.victory = true ∧
    (check_game_over { initState .FBI with hostages_released := 10, tension_level := 1, turn := 99, hostage_deadline := 0 }).2 = true :=
  ⟨by norm_num [initState], C5_victory_priority _ (by norm_num [initState])⟩

/--
Counterexample to the literal C7: the claim — `+0.05` on the effective chance of a
negotiation-category catalog action when `trust_level > 0.7`, and `−0.05`
for a force-category action when `tension_level > 0.7` — matches the
in-code comments (`# +5% for high trust`, `# -5% for high tension`), but
`get_dynamic_success_chance` tests `action_category in ["NEGOTIATE",
"TACTICAL"]` / `["FORCE", "SPECIAL"]`, while its only caller passes
`ActionCategory.value` strings (`"Negotiation"`, `"Force"`, …), so the
branches never fire.  Evaluation at the failing inputs: trust 0.8 (morale
0.5 to silence the live morale bonus), a `Negotiation` action of base
chance 0.5 keeps chance 0.5 instead of 0.55; tension 0.8 with a `Force`
action keeps 0.5 instead of 0.45.
-/
theorem C7_trust_modifier_dead_branch :
    get_dynamic_success_chance { initState .FBI with trust_level := 8/10, morale_level := 1/2 } (ActionCategory.NEGOTIATION.value) (1/2) = 1/2 ∧
    ¬ get_dynamic_success_chance { initState .FBI with trust_level := 8/10, morale_level := 1/2 } (ActionCategory.NEGOTIATION.value) (1/2) = 1/2 + 5/100 ∧
    get_dynamic_success_chance { initState .FBI with tension_level := 8/10, morale_level := 1/2 } (ActionCategory.FORCE.value) (1/2) = 1/2 ∧
    ¬ get_dynamic_success_chance { initState .FBI with tension_level := 8/10, morale_level := 1/2 } (ActionCategory.FORCE.value) (1/2) = 1/2 - 5/100 := by
  refine ⟨?_, ?_, ?_, ?_⟩ <;>
    · simp [get_dynamic_success_chance, initState, ActionCategory.value]
      norm_num

/--
**C7** (amended).  The trust/tension chance modifiers of
`get_dynamic_success_chance` are dead code for every real action
category: the function tests `"NEGOTIATE"`/`"TACTICAL"` and
`"FORCE"`/`"SPECIAL"`, its only caller passes the capitalized
`ActionCategory.value` strings, and trust and tension enter the
computation nowhere else — so the effective chance of a catalog action
is invariant under arbitrary changes of `trust_level` and
`tension_level`, and no ±0.05 modifier is ever applied.
-/
theorem C7_trust_modifier_invariance (gs : GameState) (ac : ActionCategory)
    (base t u : ℚ) :
    get_dynamic_success_chance { gs with trust_level := t
                                         tension_level := u } ac.value base
      = get_dynamic_success_chance gs ac.value base := by
  cases ac <;> rfl

/-- `random.choice` on a nonempty list returns a member. -/
theorem pickIdx_of_ne_nil {l : List Hostage} (h : l ≠ []) (k : ℕ) :
    ∃ x ∈ l, pickIdx l k = some x := by
  have hlen : 0 < l.length := List.length_pos.mpr h
  have hk : k % l.length < l.length := Nat.mod_lt _ hlen
  refine ⟨l.get ⟨k % l.length, hk⟩, List.get_mem _ _ hk, ?_⟩
  simp [pickIdx, List.get?_eq_get hk]

/-- A member's id is found by the lookup loop. -/
theorem hasId_of_mem {l : List Hostage} {x : Hostage} (hm : x ∈ l) :
    hasId l x.id = true := by
  simp only [hasId, List.any_eq_true]
  exact ⟨x, hm, by simp⟩

/-- The raw `update_hostage_status` on a wounded-status update with the
`hostages_wounded` attribute missing reports the `AttributeError`. -/
theorem uhsRaw_wounded (gs : GameState) (i : ℕ) (u : StatusUpdate)
    (hw : gs.hostages_wounded = none) (hid : hasId gs.hostages_status i = true)
    (hu : u.status = some "wounded") :
    (update_hostage_status_raw gs i u).2 = some attrErr := by
  unfold update_hostage_status_raw
  rw [if_pos hid, hu]
  simp [hw]

/-- A bind whose first step fails propagates the error. -/
theorem bindError {α β : Type} {e : String} (x : Except String α)
    (k : α → Except String β) (h : x = .error e) : (x >>= k) = .error e := by
  rw [h]; rfl

/-- `Except`-level version of `uhsRaw_wounded`. -/
theorem uhs_wounded (gs : GameState) (i : ℕ) (u : StatusUpdate)
    (hw : gs.hostages_wounded = none) (hid : hasId gs.hostages_status i = true)
    (hu : u.status = some "wounded") :
    update_hostage_status gs i u = .error attrErr := by
  have h2 := uhsRaw_wounded gs i u hw hid hu
  unfold update_hostage_status
  rcases hr : update_hostage_status_raw gs i u with ⟨gs', e⟩
  rw [hr] at h2
  simp only at h2
  rw [h2]

/-- The wounding stage raises the `AttributeError` whenever the tension
threshold and the roll are met, `hostages_wounded` is missing, and a
captured full-health hostage exists. -/
theorem usaWoundStage_error (gs : GameState) (r : UsaRand)
    (hw : gs.hostages_wounded = none) (ht : gs.tension_level ≥ 8/10)
    (hne : (gs.hostages_status.filter fun h =>
      h.status = "captured" ∧ h.health = 100) ≠ [])
    (hroll : r.woundRoll = true) :
    usaWoundStage gs r = .error attrErr := by
  obtain ⟨h0, hmem, hpick⟩ := pickIdx_of_ne_nil hne r.woundIdx
  have hmem2 : h0 ∈ gs.hostages_status := (List.mem_filter.mp hmem).1
  unfold usaWoundStage
  rw [if_pos ⟨ht, hroll⟩]
  dsimp only
  split
  · next h heq =>
      rw [hpick] at heq
      cases heq
      exact uhs_wounded _ _ _ hw (hasId_of_mem hmem2) rfl
  · next heq =>
      rw [hpick] at heq
      simp at heq

/-- The failure case of the metric stage. -/
theorem usaMetricStage_false (gs : GameState) (c : String) :
    usaMetricStage gs c false = modify_tension gs (15/100) := rfl

/-- The tactical stage touches only `tactical_positions`. -/
theorem usaTacticalStage_proj (gs : GameState) (n : String) (s : Bool) :
    (usaTacticalStage gs n s).tension_level = gs.tension_level ∧
    (usaTacticalStage gs n s).hostages_status = gs.hostages_status ∧
    (usaTacticalStage gs n s).hostages_wounded = gs.hostages_wounded := by
  unfold usaTacticalStage
  split_ifs <;> exact ⟨rfl, rfl, rfl⟩


/--
**C10.**  (1) `__init__` defines no `hostages_wounded` attribute;
(2) every id `0 ≤ i < 10` matches a hostage of the initial roster, and on
any state without the attribute, a call of `update_hostage_status` whose
update sets `status` to `'wounded'` and whose id matches some hostage
raises `AttributeError` (the increment `self.hostages_wounded += 1` reads
the missing attribute); (3) the branch is reachable from the public
interface: `update_state_after_action` on a failed action with
`tension_level ≥ 0.8`, a wounding roll, and a healthy captured hostage
propagates exactly this error.
-/
theorem C10_wounded_attribute_error :
    (∀ pf : Faction, (initState pf).hostages_wounded = none) ∧
    (∀ pf : Faction, ∀ i : ℕ, i < 10 →
      hasId (initState pf).hostages_status i = true) ∧
    (∀ (gs : GameState) (i : ℕ) (u : StatusUpdate),
      gs.hostages_wounded = none → hasId gs.hostages_status i = true →
      u.status = some "wounded" →
      (update_hostage_status_raw gs i u).2 = some attrErr) ∧
    (∀ (gs : GameState) (name cat : String) (r : UsaRand),
      gs.hostages_wounded = none → gs.tension_level ≥ 8/10 →
      (gs.hostages_status.filter fun h =>
        h.status = "captured" ∧ h.health = 100) ≠ [] →
      r.woundRoll = true →
      update_state_after_action gs name cat false r = .error attrErr) := by
  refine ⟨fun pf => rfl, ?_, uhsRaw_wounded, ?_⟩
  · intro pf i hi
    show hasId initHostages i = true
    interval_cases i <;> decide
  · intro gs name cat r hw ht hne hroll
    have ht2 : clamp01 (gs.tension_level + 15/100) ≥ 8/10 := by
      unfold clamp01
      have h1 : (8:ℚ)/10 ≤ min 1 (gs.tension_level + 15/100) :=
        le_min (by norm_num) (by linarith)
      exact h1.trans (le_max_right _ _)
    unfold update_state_after_action
    dsimp only
    refine bindError _ _ (usaWoundStage_error _ r ?_ ?_ ?_ hroll)
    · rw [(usaTacticalStage_proj _ _ _).2.2, usaMetricStage_false]
      exact hw
    · rw [(usaTacticalStage_proj _ _ _).1, usaMetricStage_false]
      exact ht2
    · rw [(usaTacticalStage_proj _ _ _).2.1, usaMetricStage_false]
      exact hne

/-- Witness for C10: on the FBI initial state with tension raised to 0.9, a
failed action with a wounding roll makes `update_state_after_action` raise
the `AttributeError`. -/
theorem C10_wounded_attribute_error_witness :
    ((initState .FBI).hostages_wounded = none) ∧
    (hasId (initState .FBI).hostages_status 3 = true) ∧
    ((update_hostage_status_raw { initState .FBI with tension_level := 9/10 } 3
        { status := some "wounded", health := some 50 }).2 = some attrErr) ∧
    (update_state_after_action { initState .FBI with tension_level := 9/10 }
        "Breach Main Entrance" "Force" false { woundRoll := true }
      = .error attrErr) := by
  have h := C10_wounded_attribute_error
  refine ⟨h.1 .FBI, h.2.1 .FBI 3 (by norm_num), ?_, ?_⟩
  · exact h.2.2.1 _ 3 _ rfl (by decide) rfl
  · exact h.2.2.2 _ "Breach Main Entrance" "Force" _ rfl (by norm_num) (by decide) rfl

/-! ### Plumbing lemmas for the `Except` pipeline -/

/-- Inversion of a successful bind. -/
theorem exceptBind_ok {α β : Type} {x : Except String α}
    {k : α → Except String β} {b : β} (h : x >>= k = .ok b) :
    ∃ a, x = .ok a ∧ k a = .ok b := by
  cases x with
  | error e => exact absurd h (by intro hh; exact Except.noConfusion hh)
  | ok a => exact ⟨a, rfl, h⟩

/-- Inversion of a successful `pure`. -/
theorem pure_ok {α : Type} {a b : α}
    (h : (pure a : Except String α) = .ok b) : a = b := by
  injection h

theorem pres4_refl (a : GameState) : Pres4 a a := ⟨rfl, rfl, rfl, rfl⟩

theorem pres4_trans {a b c : GameState} (h1 : Pres4 a b) (h2 : Pres4 b c) :
    Pres4 a c :=
  ⟨h2.1.trans h1.1, h2.2.1.trans h1.2.1, h2.2.2.1.trans h1.2.2.1,
   h2.2.2.2.trans h1.2.2.2⟩

theorem pres4_of_eq {a b : GameState} (h : a = b) : Pres4 a b := h ▸ pres4_refl a

/-- `update_hostage_status_raw` touches only the roster and counters. -/
theorem uhsRaw_pres (gs : GameState) (i : ℕ) (u : StatusUpdate) :
    Pres4 gs (update_hostage_status_raw gs i u).1 := by
  unfold update_hostage_status_raw Pres4
  split
  · rcases u with ⟨us, uh⟩
    rcases us with _ | st
    · exact ⟨rfl, rfl, rfl, rfl⟩
    · simp only
      split
      · exact ⟨rfl, rfl, rfl, rfl⟩
      · split
        · split <;> exact ⟨rfl, rfl, rfl, rfl⟩
        · split <;> exact ⟨rfl, rfl, rfl, rfl⟩
  · exact ⟨rfl, rfl, rfl, rfl⟩

/-- `update_hostage_status` on success. -/
theorem uhs_ok_pres {gs : GameState} {i : ℕ} {u : StatusUpdate}
    {gs' : GameState} (h : update_hostage_status gs i u = .ok gs') :
    Pres4 gs gs' := by
  have hp := uhsRaw_pres gs i u
  unfold update_hostage_status at h
  rcases hr : update_hostage_status_raw gs i u with ⟨g, e⟩
  rw [hr] at h hp
  cases e with
  | none => injection h with h; exact h ▸ hp
  | some e => exact Except.noConfusion h

/-- `check_game_over` sets only the game-over flags. -/
theorem cgo_pres (gs : GameState) : Pres4 gs (check_game_over gs).1 := by
  unfold check_game_over Pres4
  split_ifs <;> exact ⟨rfl, rfl, rfl, rfl⟩

/-- `update_environment` touches resources, hostages and environment only. -/
theorem upd_env_pres (gs : GameState) (c v : String) (fr : Bool) :
    Pres4 gs (update_environment gs c v fr) := by
  unfold update_environment setEnv getEnv Pres4
  dsimp only
  split_ifs <;> exact ⟨rfl, rfl, rfl, rfl⟩

/-- The modify-resource family preserves the four fields. -/
theorem modify_player_resource_pres (gs : GameState) (r : String) (a : ℤ) :
    Pres4 gs (modify_player_resource gs r a) := ⟨rfl, rfl, rfl, rfl⟩

theorem modify_ai_resource_pres (gs : GameState) (r : String) (a : ℤ) :
    Pres4 gs (modify_ai_resource gs r a) := ⟨rfl, rfl, rfl, rfl⟩

theorem modify_player_personnel_pres (gs : GameState) (r : String) (a : ℤ) :
    Pres4 gs (modify_player_personnel gs r a) := ⟨rfl, rfl, rfl, rfl⟩

theorem modify_ai_personnel_pres (gs : GameState) (r : String) (a : ℤ) :
    Pres4 gs (modify_ai_personnel gs r a) := ⟨rfl, rfl, rfl, rfl⟩

/-- The hostage-effect loop preserves the four fields. -/
theorem hostageLoop_pres (e : String) : ∀ (n : ℕ) (gs : GameState)
    (avail : List Hostage) (picks : List ℕ) (d d' : Option String)
    (gs' : GameState), hostageLoop gs e avail n picks d = .ok (d', gs') →
    Pres4 gs gs' := by
  intro n
  induction n with
  | zero =>
    intro gs avail picks d d' gs' h
    unfold hostageLoop at h
    exact pres4_of_eq (congrArg Prod.snd (pure_ok h))
  | succ n ih =>
    intro gs avail picks d d' gs' h
    unfold hostageLoop at h
    rcases hp : pickIdx avail (picks.headD 0) with _ | h0
    · rw [hp] at h
      exact pres4_of_eq (congrArg Prod.snd (pure_ok h))
    · rw [hp] at h
      split_ifs at h
      · obtain ⟨mid, h1, h2⟩ := exceptBind_ok h
        exact pres4_trans (uhs_ok_pres h1) (ih _ _ _ _ _ _ h2)
      · obtain ⟨mid, h1, h2⟩ := exceptBind_ok h
        exact pres4_trans (uhs_ok_pres h1) (ih _ _ _ _ _ _ h2)
      · obtain ⟨mid, h1, h2⟩ := exceptBind_ok h
        exact pres4_trans (uhs_ok_pres h1) (ih _ _ _ _ _ _ h2)
      · exact ih _ _ _ _ _ _ h

/-- One consequence preserves the four fields (every branch mutates only
resources, personnel, hostages, environment, tactical flags or the
deadline). -/
theorem applyConsequences_pres :
    ∀ (cons : List Consequence) (gs : GameState) (s cs cf : Bool)
      (rands : List ConsRand) (ds : List String) (gs' : GameState),
      applyConsequences cons gs s cs cf rands = .ok (ds, gs') →
      Pres4 gs gs' := by
  intro cons
  induction cons with
  | nil =>
    intro gs s cs cf rands ds gs' h
    unfold applyConsequences at h
    exact pres4_of_eq (congrArg Prod.snd (pure_ok h))
  | cons c rest ih =>
    intro gs s cs cf rands ds gs' h
    unfold applyConsequences at h
    dsimp only at h
    have step : ∀ (E : Except String (Option String × GameState)),
        (E >>= fun y =>
          applyConsequences rest y.2 s cs cf rands.tail >>= fun dd =>
            pure (y.1.toList ++ dd.1, dd.2)) = .ok (ds, gs') →
        (∀ p, E = .ok p → Pres4 gs p.2) →
        Pres4 gs gs' := by
      intro E hh hE
      obtain ⟨y, h1, h2⟩ := exceptBind_ok hh
      obtain ⟨dd, h3, h4⟩ := exceptBind_ok h2
      have h5 : dd.2 = gs' := congrArg Prod.snd (pure_ok h4)
      exact pres4_trans (hE y h1) (h5 ▸ ih y.2 s cs cf rands.tail dd.1 dd.2 h3)
    have pres4_snd_pure : ∀ {st : GameState} {d : Option String}
        {p : Option String × GameState},
        (pure (d, st) : Except String (Option String × GameState)) = .ok p →
        Pres4 gs st → Pres4 gs p.2 := fun hp hst =>
      pres4_trans hst (pres4_of_eq (congrArg Prod.snd (pure_ok hp)))
    rcases c with ⟨cond, v, ocf, p⟩ | ⟨eff, cnt, rs, ocf, p⟩ |
        ⟨pt, am, p⟩ | ⟨rt, am, p⟩ | ⟨rt, am, p⟩ | ⟨pos, v, p⟩ | ⟨am, p⟩ |
        ⟨pt, am, p⟩ <;>
      (try dsimp only at h) <;>
      split_ifs at h <;>
      first
        | exact step _ h (fun p hp => pres4_snd_pure hp ⟨rfl, rfl, rfl, rfl⟩)
        | exact step _ h (fun p hp => pres4_snd_pure hp (upd_env_pres gs _ _ _))
        | exact step _ h (fun p hp =>
            hostageLoop_pres _ _ _ _ _ _ p.1 p.2 hp)

/-- The `_apply_effect` release loop preserves the four fields. -/
theorem effReleaseLoop_pres : ∀ (n : ℕ) (gs : GameState)
    (avail : List Hostage) (picks : List ℕ) (m m' : Option String)
    (gs' : GameState), effReleaseLoop gs avail n picks m = .ok (m', gs') →
    Pres4 gs gs' := by
  intro n
  induction n with
  | zero =>
    intro gs avail picks m m' gs' h
    unfold effReleaseLoop at h
    exact pres4_of_eq (congrArg Prod.snd (pure_ok h))
  | succ n ih =>
    intro gs avail picks m m' gs' h
    unfold effReleaseLoop at h
    rcases hp : pickIdx avail (picks.headD 0) with _ | h0
    · rw [hp] at h
      exact pres4_of_eq (congrArg Prod.snd (pure_ok h))
    · rw [hp] at h
      obtain ⟨mid, h1, h2⟩ := exceptBind_ok h
      exact pres4_trans (uhs_ok_pres h1) (ih _ _ _ _ _ _ h2)

/-- `_apply_effect` never changes `action_points` (the
`EXTRA_ACTION_POINTS` effect credits `next_turn_extra_ap` instead). -/
theorem apply_effect_ap (eff : ActionEffect) (gs : GameState) (m : ℚ)
    (er : EffRand) (msg : Option String) (gs' : GameState)
    (h : apply_effect eff gs m er = .ok (msg, gs')) :
    gs'.action_points = gs.action_points := by
  cases eff <;> unfold apply_effect at h <;> dsimp only at h <;>
    first
      | exact (congrArg (fun p => p.2.action_points) (pure_ok h)).symm
      | exact (effReleaseLoop_pres _ _ _ _ _ _ _ h).1
      | · rcases hp : (gs.tactical_positions.filter fun p => p.2 = false).get?
            (er.tacticalIdx % (gs.tactical_positions.filter fun p =>
              p.2 = false).length) with _ | pos <;> rw [hp] at h <;>
          exact (congrArg (fun p => p.2.action_points) (pure_ok h)).symm

/-- The effects loop of `perform_action` never changes `action_points`. -/
theorem applyEffects_ap : ∀ (effs : List ActionEffect) (gs : GameState)
    (em : ℚ) (ers : List EffRand) (ms : List String) (gs' : GameState),
    applyEffects effs gs em ers = .ok (ms, gs') →
    gs'.action_points = gs.action_points := by
  intro effs
  induction effs with
  | nil =>
    intro gs em ers ms gs' h
    unfold applyEffects at h
    exact (congrArg (fun p => p.2.action_points) (pure_ok h)).symm
  | cons e rest ih =>
    intro gs em ers ms gs' h
    unfold applyEffects at h
    obtain ⟨⟨m1, g1⟩, h1, hk⟩ := exceptBind_ok h
    obtain ⟨⟨ms2, g2⟩, h2, h3⟩ := exceptBind_ok hk
    have e1 := apply_effect_ap _ _ _ _ _ _ h1
    have e2 := ih _ _ _ _ _ h2
    have e3 : g2 = gs' := congrArg Prod.snd (pure_ok h3)
    rw [← e3]
    rw [e2, e1]

/-- `_apply_costs` preserves the four fields. -/
theorem apply_costs_pres (a : GameAction) (gs : GameState) :
    Pres4 gs (apply_costs a gs) := by
  unfold apply_costs
  have h1 : ∀ (l : AListZ) (g : GameState),
      Pres4 g (l.foldl (fun gs p => modify_player_resource gs p.1 (-p.2)) g) := by
    intro l
    induction l with
    | nil => intro g; exact pres4_refl g
    | cons p t ih =>
      intro g
      exact pres4_trans (modify_player_resource_pres g p.1 (-p.2)) (ih _)
  have h2 : ∀ (l : AListZ) (g : GameState),
      Pres4 g (l.foldl (fun gs p => modify_player_personnel gs p.1 (-p.2)) g) := by
    intro l
    induction l with
    | nil => intro g; exact pres4_refl g
    | cons p t ih =>
      intro g
      exact pres4_trans (modify_player_personnel_pres g p.1 (-p.2)) (ih _)
  exact pres4_trans (h1 _ _) (h2 _ _)

/-! ### Stage lemmas for the `update_state_after_action` pipeline -/

/-- The metric stage never changes `action_points`. -/
theorem usaMetricStage_ap (gs : GameState) (c : String) (s : Bool) :
    (usaMetricStage gs c s).action_points = gs.action_points := by
  unfold usaMetricStage
  split_ifs <;> rfl

/-- The metric stage touches neither the roster nor the wounded counter. -/
theorem usaMetricStage_hostages (gs : GameState) (c : String) (s : Bool) :
    (usaMetricStage gs c s).hostages_status = gs.hostages_status ∧
    (usaMetricStage gs c s).hostages_wounded = gs.hostages_wounded := by
  unfold usaMetricStage
  split_ifs <;> exact ⟨rfl, rfl⟩

/-- On success the uppercase category comparisons of the metric stage
match none of the capitalized `ActionCategory.value` strings, so the
stage is the identity. -/
theorem usaMetricStage_success_id (gs : GameState) (ac : ActionCategory) :
    usaMetricStage gs ac.value true = gs := by
  cases ac <;> rfl

/-- With tension at least 0.9 the metric stage leaves it at least 0.8,
whatever the category string and outcome. -/
theorem usaMetricStage_tension_ge (gs : GameState) (c : String) (s : Bool)
    (ht : gs.tension_level ≥ 9/10) :
    (usaMetricStage gs c s).tension_level ≥ 8/10 := by
  unfold usaMetricStage modify_trust modify_tension modify_morale clamp01
  split_ifs <;> (try dsimp only) <;>
    first
      | linarith
      | exact le_trans (le_min (by norm_num) (by linarith)) (le_max_right _ _)

/-- The metric-stage trust and tension depend only on the input metrics. -/
theorem usaMetricStage_congr (a b : GameState) (c : String) (s : Bool)
    (htr : a.trust_level = b.trust_level)
    (hte : a.tension_level = b.tension_level)
    (_hm : a.morale_level = b.morale_level) :
    (usaMetricStage a c s).trust_level = (usaMetricStage b c s).trust_level ∧
    (usaMetricStage a c s).tension_level = (usaMetricStage b c s).tension_level := by
  unfold usaMetricStage modify_trust modify_tension modify_morale
  split_ifs <;>
    exact ⟨by simp only [htr, hte], by simp only [htr, hte]⟩

/-- The tactical stage preserves the four fields. -/
theorem usaTacticalStage_pres (gs : GameState) (n : String) (s : Bool) :
    Pres4 gs (usaTacticalStage gs n s) := by
  unfold usaTacticalStage Pres4
  split_ifs <;> exact ⟨rfl, rfl, rfl, rfl⟩

/-- The deadline stage preserves the four fields. -/
theorem usaDeadlineStage_pres (gs : GameState) (c : String) (s : Bool) :
    Pres4 gs (usaDeadlineStage gs c s) := by
  unfold usaDeadlineStage Pres4
  split_ifs <;> exact ⟨rfl, rfl, rfl, rfl⟩

/-- A wound stage that does not raise preserves the four fields. -/
theorem usaWoundStage_ok_pres {gs : GameState} {r : UsaRand} {gs' : GameState}
    (h : usaWoundStage gs r = .ok gs') : Pres4 gs gs' := by
  unfold usaWoundStage at h
  split_ifs at h
  · dsimp only at h
    rcases hp : pickIdx (gs.hostages_status.filter fun x =>
        x.status = "captured" ∧ x.health = 100) r.woundIdx with _ | h0
    · rw [hp] at h
      exact pres4_of_eq (pure_ok h)
    · rw [hp] at h
      exact uhs_ok_pres h
  · exact pres4_of_eq (pure_ok h)

/-- The wound stage is skipped whenever the roll fails. -/
theorem usaWoundStage_noroll (gs : GameState) (r : UsaRand)
    (hr : r.woundRoll = false) : usaWoundStage gs r = pure gs := by
  simp [usaWoundStage, hr]

/-- A hostage-taker stage that does not raise preserves the four fields. -/
theorem usaHTStage_ok_pres {gs : GameState} {c : String} {s : Bool}
    {r : UsaRand} {gs' : GameState} (h : usaHTStage gs c s r = .ok gs') :
    Pres4 gs gs' := by
  unfold usaHTStage at h
  try dsimp only at h
  split_ifs at h
  · refine pres4_trans ?_ (pres4_of_eq (pure_ok h))
    exact pres4_trans ⟨rfl, rfl, rfl, rfl⟩ (modify_ai_personnel_pres _ _ _)
  · refine pres4_trans ?_ (pres4_of_eq (pure_ok h))
    exact ⟨rfl, rfl, rfl, rfl⟩
  · rcases hp : pickIdx (gs.hostages_status.filter fun x =>
        x.status = "captured") r.releaseIdx with _ | h0
    · rw [hp] at h
      refine pres4_trans ?_ (pres4_of_eq (pure_ok h))
      exact ⟨rfl, rfl, rfl, rfl⟩
    · rw [hp] at h
      refine pres4_trans ?_ (uhs_ok_pres h)
      exact ⟨rfl, rfl, rfl, rfl⟩
  · refine pres4_trans ?_ (pres4_of_eq (pure_ok h))
    exact ⟨rfl, rfl, rfl, rfl⟩
  · exact pres4_of_eq (pure_ok h)
  · exact pres4_of_eq (pure_ok h)
  · exact pres4_trans (modify_player_personnel_pres _ _ _)
      (pres4_of_eq (pure_ok h))
  · exact pres4_of_eq (pure_ok h)

/-- A successful `update_state_after_action` run preserves the four
fields of the metric-stage output. -/
theorem usa_ok_pres4 {gs : GameState} {name cat : String} {s : Bool}
    {r : UsaRand} {gs' : GameState}
    (h : update_state_after_action gs name cat s r = .ok gs') :
    Pres4 (usaMetricStage { gs with last_action_category := some cat
                                    last_action_success := some s } cat s)
      gs' := by
  unfold update_state_after_action at h
  try dsimp only at h
  obtain ⟨g1, h1, h2⟩ := exceptBind_ok h
  try dsimp only at h2
  obtain ⟨g2, h3, h4⟩ := exceptBind_ok h2
  have e4 : (check_game_over g2).1 = gs' := pure_ok h4
  refine pres4_trans (usaTacticalStage_pres _ name s) ?_
  refine pres4_trans (usaWoundStage_ok_pres h1) ?_
  refine pres4_trans (usaDeadlineStage_pres g1 cat s) ?_
  refine pres4_trans (usaHTStage_ok_pres h3) ?_
  exact e4 ▸ cgo_pres g2

/-- A successful `update_state_after_action` never changes
`action_points`. -/
theorem usa_ok_ap {gs : GameState} {name cat : String} {s : Bool}
    {r : UsaRand} {gs' : GameState}
    (h : update_state_after_action gs name cat s r = .ok gs') :
    gs'.action_points = gs.action_points := by
  have hp := (usa_ok_pres4 h).1
  rw [hp, usaMetricStage_ap]

/-- The conditional cooldown insertion of `GameAction.perform` preserves
the four fields. -/
theorem cooldown_pres (gs : GameState) (n : String) (t : ℤ) (c : Prop)
    [Decidable c] : Pres4 gs (if c then add_action_cooldown gs n t else gs) := by
  split <;> exact ⟨rfl, rfl, rfl, rfl⟩

/-- With tension at least 0.9, a missing wounded counter, a healthy
captured hostage and a wounding roll, `update_state_after_action` raises
the `AttributeError` for every action name, category string and outcome. -/
theorem usa_error9 (gs : GameState) (name cat : String) (s : Bool)
    (r : UsaRand) (hw : gs.hostages_wounded = none)
    (ht : gs.tension_level ≥ 9/10)
    (hne : (gs.hostages_status.filter fun x =>
      x.status = "captured" ∧ x.health = 100) ≠ [])
    (hroll : r.woundRoll = true) :
    update_state_after_action gs name cat s r = .error attrErr := by
  unfold update_state_after_action
  try dsimp only
  refine bindError _ _ (usaWoundStage_error _ r ?_ ?_ ?_ hroll)
  · rw [(usaTacticalStage_proj _ _ _).2.2, (usaMetricStage_hostages _ _ _).2]
    exact hw
  · rw [(usaTacticalStage_proj _ _ _).1]
    exact usaMetricStage_tension_ge _ _ _ ht
  · rw [(usaTacticalStage_proj _ _ _).2.1, (usaMetricStage_hostages _ _ _).1]
    exact hne

/-- The raise propagates through `GameAction.perform`. -/
theorem performGA_error (a : GameAction) (gs : GameState) (roll : ℚ)
    (ur : UsaRand) (crs : List ConsRand)
    (hw : gs.hostages_wounded = none) (ht : gs.tension_level ≥ 9/10)
    (hne : (gs.hostages_status.filter fun x =>
      x.status = "captured" ∧ x.health = 100) ≠ [])
    (hroll : ur.woundRoll = true) :
    performGA a gs roll ur crs = .error attrErr := by
  unfold performGA
  try dsimp only
  refine bindError _ _ (usa_error9 _ _ _ _ _ ?_ ?_ ?_ hroll)
  · split <;> exact hw
  · split <;> exact ht
  · split <;> exact hne

/-- The raise propagates through `ActionSystem.perform_action`, past both
validation guards: the run aborts with no result and no deduction. -/
theorem perform_action_error (gs : GameState) (a : GameAction) (roll : ℚ)
    (ur : UsaRand) (crs : List ConsRand) (ers : List EffRand)
    (hap : ¬ gs.action_points < a.action_points)
    (hcd : is_action_on_cooldown gs a.name = false)
    (hw : gs.hostages_wounded = none) (ht : gs.tension_level ≥ 9/10)
    (hne : (gs.hostages_status.filter fun x =>
      x.status = "captured" ∧ x.health = 100) ≠ [])
    (hroll : ur.woundRoll = true) :
    perform_action gs a roll ur crs ers = .error attrErr := by
  unfold perform_action
  rw [if_neg hap, if_neg (by simp [hcd])]
  try dsimp only
  exact bindError _ _ (performGA_error a gs roll ur crs hw ht hne hroll)

/-- Characterisation of a `GameAction.perform` run that returns: the
result flags are the roll classification, `action_points` is untouched,
and trust/tension are exactly the metric-stage output. -/
theorem performGA_ok_spec {a : GameAction} {gs : GameState} {roll : ℚ}
    {ur : UsaRand} {crs : List ConsRand} {res : ActionResult}
    {gs' : GameState} (h : performGA a gs roll ur crs = .ok (res, gs')) :
    res.success = decide (roll < update_success_chance a gs) ∧
    res.critical_failure
      = (!(decide (roll < update_success_chance a gs)) &&
          decide (roll > 1 - a.critical_threshold)) ∧
    gs'.action_points = gs.action_points ∧
    gs'.trust_level
      = (usaMetricStage gs a.category.value res.success).trust_level ∧
    gs'.tension_level
      = (usaMetricStage gs a.category.value res.success).tension_level := by
  unfold performGA at h
  try dsimp only at h
  obtain ⟨g1, h1, h2⟩ := exceptBind_ok h
  try dsimp only at h2
  obtain ⟨dg, h3, h4⟩ := exceptBind_ok h2
  rcases dg with ⟨descs, g2⟩
  try dsimp only at h4
  have e := pure_ok h4
  injection e with e1 e2
  subst e1
  subst e2
  refine ⟨rfl, rfl, ?_, ?_, ?_⟩
  · calc g2.action_points
        = (apply_costs a g1).action_points :=
          (applyConsequences_pres _ _ _ _ _ _ _ _ h3).1
      _ = g1.action_points := (apply_costs_pres a g1).1
      _ = _ := usa_ok_ap h1
      _ = gs.action_points := (cooldown_pres _ _ _ _).1
  · calc g2.trust_level
        = (apply_costs a g1).trust_level :=
          (applyConsequences_pres _ _ _ _ _ _ _ _ h3).2.1
      _ = g1.trust_level := (apply_costs_pres a g1).2.1
      _ = _ := (usa_ok_pres4 h1).2.1
      _ = (usaMetricStage gs a.category.value _).trust_level :=
          (usaMetricStage_congr _ _ _ _ (by split <;> rfl) (by split <;> rfl)
            (by split <;> rfl)).1
  · calc g2.tension_level
        = (apply_costs a g1).tension_level :=
          (applyConsequences_pres _ _ _ _ _ _ _ _ h3).2.2.1
      _ = g1.tension_level := (apply_costs_pres a g1).2.2.1
      _ = _ := (usa_ok_pres4 h1).2.2.1
      _ = (usaMetricStage gs a.category.value _).tension_level :=
          (usaMetricStage_congr _ _ _ _ (by split <;> rfl) (by split <;> rfl)
            (by split <;> rfl)).2

/-- The success-branch category shift block of `perform_action` never
changes `action_points`. -/
theorem succ_shift_ap (gs : GameState) (category : String) (em : ℚ) :
    (if category = "DIALOGUE" then
        modify_tension (modify_trust gs (1/10 * em)) (-(5/100) * em)
      else if category = "FORCE" then
        modify_tension (modify_trust gs (-(1/10) * em)) (15/100 * em)
      else if category = "TECH" then
        modify_tension (modify_morale gs (15/100 * em)) (-(1/10) * em)
      else if category = "NEGOTIATION" then
        modify_tension (modify_trust gs (15/100 * em)) (-(1/10) * em)
      else if category = "RESOURCES" then
        modify_morale gs (1/10 * em)
      else if category = "THREATS" then
        modify_tension (modify_trust gs (-(1/10) * em)) (2/10 * em)
      else gs).action_points = gs.action_points := by
  split_ifs <;> rfl

/-- Characterisation of a validated `perform_action` run that returns a
result: the cost is deducted exactly once, and a failed action receives
the `update_state_after_action` tension increase of 0.15 followed by the
`perform_action` one of 0.22 (critical failure) or 0.15, trust
untouched. -/
theorem perform_action_ok_spec {gs : GameState} {a : GameAction} {roll : ℚ}
    {ur : UsaRand} {crs : List ConsRand} {ers : List EffRand}
    {res : ActionResult} {gs' : GameState}
    (hap : ¬ gs.action_points < a.action_points)
    (hcd : is_action_on_cooldown gs a.name = false)
    (h : perform_action gs a roll ur crs ers = .ok (res, gs')) :
    gs'.action_points = gs.action_points - a.action_points ∧
    (res.success = false →
      gs'.trust_level = gs.trust_level ∧
      gs'.tension_level = clamp01 (clamp01 (gs.tension_level + 15/100) +
        (if res.critical_failure = true then 22/100 else 15/100))) := by
  unfold perform_action at h
  rw [if_neg hap, if_neg (by simp [hcd])] at h
  try dsimp only at h
  obtain ⟨⟨r1, g1⟩, h1, h2⟩ := exceptBind_ok h
  try dsimp only at h2
  have hga := performGA_ok_spec h1
  cases hs : r1.success with
  | false =>
    rw [if_neg (by simp [hs])] at h2
    have htr := hga.2.2.2.1
    have hte := hga.2.2.2.2
    rw [hs, usaMetricStage_false] at htr hte
    have hte' : g1.tension_level = clamp01 (gs.tension_level + 15/100) := hte
    cases hcf : r1.critical_failure with
    | true =>
      rw [if_pos hcf] at h2
      have e := pure_ok h2
      injection e with e1 e2
      subst e1
      subst e2
      refine ⟨?_, fun _ => ⟨htr, ?_⟩⟩
      · show g1.action_points - a.action_points = _
        rw [hga.2.2.1]
      · show clamp01 (g1.tension_level + 22/100) = _
        rw [hte', if_pos hcf]
    | false =>
      rw [if_neg (by simp [hcf])] at h2
      have e := pure_ok h2
      injection e with e1 e2
      subst e1
      subst e2
      refine ⟨?_, fun _ => ⟨htr, ?_⟩⟩
      · show g1.action_points - a.action_points = _
        rw [hga.2.2.1]
      · show clamp01 (g1.tension_level + 15/100) = _
        rw [hte', if_neg (by simp [hcf])]
  | true =>
    rw [if_pos hs] at h2
    try dsimp only at h2
    obtain ⟨⟨msgs, g3⟩, h3, h4⟩ := exceptBind_ok h2
    try dsimp only at h4
    have e := pure_ok h4
    injection e with e1 e2
    subst e1
    subst e2
    refine ⟨?_, fun hres => ?_⟩
    · have hge := applyEffects_ap _ _ _ _ _ _ h3
      rw [hge, succ_shift_ap]
      show g1.action_points - a.action_points = _
      rw [hga.2.2.1]
    · have hfalse : r1.success = false := hres
      rw [hs] at hfalse
      exact Bool.noConfusion hfalse

/--
**C4.**  A `perform_action` call rejected by the action-point or cooldown
validation returns a `success = False` result carrying a reason message,
and the returned state is the input state itself: nothing is deducted and
no field is mutated.
-/
theorem C4_rejection_unchanged (gs : GameState) (a : GameAction) (roll : ℚ)
    (ur : UsaRand) (crs : List ConsRand) (ers : List EffRand)
    (h : gs.action_points < a.action_points ∨
      is_action_on_cooldown gs a.name = true) :
    ∃ res : ActionResult,
      perform_action gs a roll ur crs ers = .ok (res, gs) ∧
      res.success = false ∧ res.message.isSome = true := by
  unfold perform_action
  rcases h with h | h
  · rw [if_pos h]
    exact ⟨_, rfl, rfl, rfl⟩
  · by_cases h2 : gs.action_points < a.action_points
    · rw [if_pos h2]
      exact ⟨_, rfl, rfl, rfl⟩
    · rw [if_neg h2, if_pos h]
      exact ⟨_, rfl, rfl, rfl⟩

/-- Witness for C4: `Position Snipers` (cost 3) with 2 action points is
rejected and the state is returned unchanged. -/
theorem C4_rejection_unchanged_witness :
    ({ initState .FBI with action_points := 2 }.action_points
        < positionSnipers.action_points ∨
      is_action_on_cooldown { initState .FBI with action_points := 2 }
        positionSnipers.name = true) ∧
    ∃ res : ActionResult,
      perform_action { initState .FBI with action_points := 2 }
          positionSnipers 0 {} [] []
        = .ok (res, { initState .FBI with action_points := 2 }) ∧
      res.success = false ∧ res.message.isSome = true :=
  ⟨Or.inl (by decide),
   C4_rejection_unchanged _ _ 0 {} [] [] (Or.inl (by decide))⟩

/--
**C3** (amended).  On a validated call (enough action points, not on
cooldown) that returns a result, `perform_action` deducts exactly
`action.action_points`, whatever the success/failure outcome.  The
literal claim fails on runs that raise the wounded-counter
`AttributeError` (see the counterexample): those deduct nothing because
the exception aborts `perform` before the deduction line.
-/
theorem C3_ap_deduction (gs : GameState) (a : GameAction) (roll : ℚ)
    (ur : UsaRand) (crs : List ConsRand) (ers : List EffRand)
    (res : ActionResult) (gs' : GameState)
    (hap : ¬ gs.action_points < a.action_points)
    (hcd : is_action_on_cooldown gs a.name = false)
    (h : perform_action gs a roll ur crs ers = .ok (res, gs')) :
    gs'.action_points = gs.action_points - a.action_points :=
  (perform_action_ok_spec hap hcd h).1

/-- Counterexample to the literal C3: on a reachable state with tension
0.9, a validated catalog action aborts with the `AttributeError` instead
of returning a result, and no action points are deducted. -/
theorem C3_ap_deduction_counterexample :
    (¬ { initState .FBI with tension_level := 9/10 }.action_points
        < openCommunication.action_points) ∧
    is_action_on_cooldown { initState .FBI with tension_level := 9/10 }
        openCommunication.name = false ∧
    perform_action { initState .FBI with tension_level := 9/10 }
        openCommunication (1/2) { woundRoll := true } [] []
      = .error attrErr :=
  ⟨by decide, by decide, perform_action_error _ _ _ _ _ _ (by decide)
    (by decide) rfl (le_refl _) (by decide) rfl⟩

/-! ### A concrete failed run of `Open Communication`, for the witnesses -/

/-- The tactical stage ignores `Open Communication`. -/
theorem usaTacticalStage_oc (gs : GameState) (s : Bool) :
    usaTacticalStage gs "Open Communication" s = gs := rfl

/-- The deadline stage ignores the `Dialogue` category. -/
theorem usaDeadlineStage_dialogue (gs : GameState) (s : Bool) :
    usaDeadlineStage gs "Dialogue" s = gs := rfl

/-- The hostage-taker stage ignores a failed `Dialogue` action. -/
theorem usaHTStage_dialogue_fail (gs : GameState) (r : UsaRand) :
    usaHTStage gs "Dialogue" false r = pure gs := rfl

/-- A failed `Open Communication` resolution sets the last-action fields,
bumps tension by 0.15 and runs the game-over check. -/
theorem usa_oc_fail (gs : GameState) (r : UsaRand) (hr : r.woundRoll = false) :
    update_state_after_action gs "Open Communication" "Dialogue" false r
      = pure (check_game_over (modify_tension { gs with
          last_action_category := some "Dialogue"
          last_action_success := some false } (15/100))).1 := by
  unfold update_state_after_action
  try dsimp only
  simp only [usaMetricStage_false, usaTacticalStage_oc,
    usaWoundStage_noroll _ _ hr, usaDeadlineStage_dialogue,
    usaHTStage_dialogue_fail, pure_bind]

/-- The recomputed chance of `Open Communication` on the initial state:
base 0.85 plus the morale bonus 0.05. -/
theorem cex_chance :
    update_success_chance openCommunication (initState .FBI) = 9/10 := by
  simp [update_success_chance, get_dynamic_success_chance,
    openCommunication, initState, ActionCategory.value]
  norm_num

/-- No game-over condition holds after the failed run (tension 0.45). -/
theorem cgo_cex3 :
    check_game_over (modify_tension { add_action_cooldown (initState .FBI)
        "Open Communication" 3 with
      last_action_category := some "Dialogue"
      last_action_success := some false } (15/100))
      = (modify_tension { add_action_cooldown (initState .FBI)
          "Open Communication" 3 with
        last_action_category := some "Dialogue"
        last_action_success := some false } (15/100), false) := by
  unfold check_game_over
  rw [if_neg (by decide)]
  rw [if_neg (by norm_num [modify_tension, add_action_cooldown, initState,
    clamp01])]
  rw [if_neg (by decide)]
  rw [if_neg (by decide)]
  rw [if_neg (by norm_num [modify_tension, add_action_cooldown, initState,
    clamp01])]
  rw [if_neg (by decide)]
  rw [if_neg (by decide)]
  rw [if_neg (by decide)]

/-- The failed (`roll = 1`) `Open Communication` run of
`GameAction.perform` on the initial FBI state. -/
theorem cex3_performGA :
    performGA openCommunication (initState .FBI) 1 {} []
      = .ok ({ action_name := "Open Communication", category := "Dialogue",
               success := false, critical_failure := true, roll := 1,
               target := 9/10, consequences := [] },
             modify_tension { add_action_cooldown (initState .FBI)
                 "Open Communication" 3 with
               last_action_category := some "Dialogue"
               last_action_success := some false } (15/100)) := by
  have hs : decide ((1:ℚ) < 9/10) = false := by
    simp only [decide_eq_false_iff_not]
    norm_num
  have hcf : decide ((1:ℚ) > 1 - openCommunication.critical_threshold)
      = true := by
    simp only [decide_eq_true_eq]
    norm_num [openCommunication]
  unfold performGA
  try dsimp only
  rw [cex_chance, hs]
  simp only [Bool.false_and, Bool.not_false, Bool.true_and]
  rw [hcf]
  rw [if_pos (Or.inr (Or.inr rfl))]
  simp only [openCommunication, ActionCategory.value]
  rw [usa_oc_fail _ _ rfl, cgo_cex3]
  simp [applyConsequences, apply_costs]
  rfl

/-- The failed (`roll = 1`) `Open Communication` run of `perform_action`
on the initial FBI state: 1 action point deducted, critical-failure
message, tension bumped a second time (0.45 to 0.67). -/
theorem cex3_run :
    perform_action (initState .FBI) openCommunication 1 {} [] []
      = .ok ({ action_name := "Open Communication", category := "Dialogue",
               success := false, critical_failure := true, roll := 1,
               target := 9/10, consequences := [],
               message := some "Critical failure on Open Communication!" },
             modify_tension { modify_tension { add_action_cooldown
                   (initState .FBI) "Open Communication" 3 with
                 last_action_category := some "Dialogue"
                 last_action_success := some false } (15/100) with
               action_points := 2 } (22/100)) := by
  unfold perform_action
  rw [if_neg (by decide), if_neg (by decide)]
  try dsimp only
  rw [cex3_performGA]
  simp [openCommunication]
  rfl

/-- Witness for C3: the concrete failed run deducts exactly the cost. -/
theorem C3_ap_deduction_witness :
    (¬ (initState .FBI).action_points < openCommunication.action_points) ∧
    is_action_on_cooldown (initState .FBI) openCommunication.name = false ∧
    ∃ res gs',
      perform_action (initState .FBI) openCommunication 1 {} [] []
        = .ok (res, gs') ∧
      gs'.action_points
        = (initState .FBI).action_points - openCommunication.action_points := by
  refine ⟨by decide, by decide, _, _, cex3_run, ?_⟩
  exact C3_ap_deduction _ _ _ _ _ _ _ _ (by decide) (by decide) cex3_run

/-! ### A concrete successful run of `Open Communication` -/

/-- A successful `Dialogue` action triggers no metric-stage branch. -/
theorem usaMetricStage_dialogue_succ (gs : GameState) :
    usaMetricStage gs "Dialogue" true = gs := rfl

/-- The hostage-taker stage ignores a successful `Dialogue` action. -/
theorem usaHTStage_dialogue_succ (gs : GameState) (r : UsaRand) :
    usaHTStage gs "Dialogue" true r = pure gs := rfl

/-- A successful `Open Communication` resolution only sets the
last-action fields and runs the game-over check. -/
theorem usa_oc_succ (gs : GameState) (r : UsaRand) (hr : r.woundRoll = false) :
    update_state_after_action gs "Open Communication" "Dialogue" true r
      = pure (check_game_over { gs with
          last_action_category := some "Dialogue"
          last_action_success := some true }).1 := by
  unfold update_state_after_action
  try dsimp only
  simp only [usaMetricStage_dialogue_succ, usaTacticalStage_oc,
    usaWoundStage_noroll _ _ hr, usaDeadlineStage_dialogue,
    usaHTStage_dialogue_succ, pure_bind]

/-- The critical-success scaling of a +1 resource delta: `int(1 * 1.5) = 1`. -/
theorem hsc1 : scaleAmount true false 1 = 1 := by
  norm_num [scaleAmount, pyInt]
  decide

/-- The `Open Communication` consequences on a critical success: +1
intelligence (scaled from 1 by 1.5 and truncated) and +5 media control. -/
theorem cex6_cons (gs : GameState) :
    applyConsequences [Consequence.resource "intelligence" 1 1,
      Consequence.pub "media_control" 5 1] gs true true false []
      = .ok (["Gained 1 intelligence", "Media control 5%"],
          { modify_player_resource gs "intelligence" 1 with
            player_resources := aset (modify_player_resource gs
                "intelligence" 1).player_resources "media_control"
              (max 0 (min 100 (agetD (modify_player_resource gs
                "intelligence" 1).player_resources "media_control" 0 + 5))) }) := by
  simp [applyConsequences, hsc1]
  rfl

/-- No game-over condition holds after the successful run. -/
theorem cgo_cex6 :
    check_game_over { add_action_cooldown (initState .FBI)
        "Open Communication" 3 with
      last_action_category := some "Dialogue"
      last_action_success := some true }
      = ({ add_action_cooldown (initState .FBI) "Open Communication" 3 with
          last_action_category := some "Dialogue"
          last_action_success := some true }, false) := by
  unfold check_game_over
  rw [if_neg (by decide)]
  rw [if_neg (by norm_num [add_action_cooldown, initState])]
  rw [if_neg (by decide)]
  rw [if_neg (by decide)]
  rw [if_neg (by norm_num [add_action_cooldown, initState])]
  rw [if_neg (by decide)]
  rw [if_neg (by decide)]
  rw [if_neg (by decide)]


/-- The successful (`roll = 0`) `Open Communication` run on the initial
FBI state: the action succeeds (critically) yet trust and tension are
exactly the initial values. -/
theorem cex6_run :
    ∃ (res : ActionResult) (gs' : GameState),
      perform_action (initState .FBI) openCommunication 0 {} [] []
        = .ok (res, gs') ∧
      res.success = true ∧ res.critical_success = true ∧
      gs'.trust_level = (initState .FBI).trust_level ∧
      gs'.tension_level = (initState .FBI).tension_level := by
  have hs : decide ((0:ℚ) < 9/10) = true := by
    simp only [decide_eq_true_eq]
    norm_num
  have hcs : decide ((0:ℚ) < 9/10 * openCommunication.critical_threshold)
      = true := by
    simp only [decide_eq_true_eq]
    norm_num [openCommunication]
  have hpart : decide ((0:ℚ) > 9/10 - 1/10) = false := by
    simp only [decide_eq_false_iff_not]
    norm_num
  unfold perform_action
  rw [if_neg (by decide), if_neg (by decide)]
  try dsimp only
  unfold performGA
  try dsimp only
  rw [cex_chance, hs]
  simp only [Bool.true_and, Bool.not_true, Bool.false_and]
  rw [hcs, hpart]
  rw [if_pos (Or.inr (Or.inl rfl))]
  simp only [openCommunication, ActionCategory.value]
  rw [usa_oc_succ _ _ rfl, cgo_cex6]
  simp [apply_costs, cex6_cons, applyEffects, get_game_stage]
  exact ⟨_, _, rfl, rfl, rfl, rfl, rfl⟩

/--
**C6** (amended).  The category baseline shifts of a *successful* action
never fire: `update_state_after_action` compares the category against
uppercase names (`"DIALOGUE"`, `"FORCE"`, …) while every caller passes
the capitalized `ActionCategory.value` strings (`"Dialogue"`, `"Force"`,
…), so the metric stage of a successful action is the identity (first
conjunct) — a successful dialogue action does **not** give trust +0.1 /
tension −0.05, nor force −0.1 / +0.15.  A *failed* action of any
category raises tension by 0.15 there (second conjunct), and
`perform_action` then adds a second increase of 0.22 on critical failure
or 0.15 otherwise — two separate clamped additions, not one +0.15
doubled on critical failure (third conjunct); trust is untouched.
-/
theorem C6_category_metric_shifts :
    (∀ (gs : GameState) (ac : ActionCategory),
      usaMetricStage gs ac.value true = gs) ∧
    (∀ (gs : GameState) (cat : String),
      usaMetricStage gs cat false = modify_tension gs (15/100)) ∧
    (∀ (gs : GameState) (a : GameAction) (roll : ℚ) (ur : UsaRand)
      (crs : List ConsRand) (ers : List EffRand) (res : ActionResult)
      (gs' : GameState),
      ¬ gs.action_points < a.action_points →
      is_action_on_cooldown gs a.name = false →
      perform_action gs a roll ur crs ers = .ok (res, gs') →
      res.success = false →
      gs'.trust_level = gs.trust_level ∧
      gs'.tension_level = clamp01 (clamp01 (gs.tension_level + 15/100) +
        (if res.critical_failure = true then 22/100 else 15/100))) :=
  ⟨fun gs ac => usaMetricStage_success_id gs ac,
   fun gs cat => usaMetricStage_false gs cat,
   fun _ _ _ _ _ _ _ _ hap hcd h hf => (perform_action_ok_spec hap hcd h).2 hf⟩

/-- Counterexample to the literal C6: a successful dialogue-category
catalog action (`Open Communication`, roll 0) leaves trust and tension
exactly at their initial values — not trust +0.1 / tension −0.05. -/
theorem C6_category_metric_shifts_counterexample :
    ∃ (res : ActionResult) (gs' : GameState),
      perform_action (initState .FBI) openCommunication 0 {} [] []
        = .ok (res, gs') ∧
      openCommunication.category = ActionCategory.DIALOGUE ∧
      res.success = true ∧
      gs'.trust_level = (initState .FBI).trust_level ∧
      ¬ gs'.trust_level = clamp01 ((initState .FBI).trust_level + 1/10) ∧
      gs'.tension_level = (initState .FBI).tension_level ∧
      ¬ gs'.tension_level
        = clamp01 ((initState .FBI).tension_level - 5/100) := by
  obtain ⟨res, gs', hrun, hsucc, _hcs, htr, hte⟩ := cex6_run
  refine ⟨res, gs', hrun, rfl, hsucc, htr, ?_, hte, ?_⟩
  · rw [htr]
    norm_num [initState, clamp01]
  · rw [hte]
    norm_num [initState, clamp01]

/-- Witness for C6: the two identities at the initial state, and the
third conjunct instantiated on the concrete failed run. -/
theorem C6_category_metric_shifts_witness :
    usaMetricStage (initState .FBI) (ActionCategory.DIALOGUE).value true
      = initState .FBI ∧
    usaMetricStage (initState .FBI) "Dialogue" false
      = modify_tension (initState .FBI) (15/100) ∧
    ∃ (res : ActionResult) (gs' : GameState),
      perform_action (initState .FBI) openCommunication 1 {} [] []
        = .ok (res, gs') ∧ res.success = false ∧
      gs'.trust_level = (initState .FBI).trust_level ∧
      gs'.tension_level
        = clamp01 (clamp01 ((initState .FBI).tension_level + 15/100) +
            (if res.critical_failure = true then 22/100 else 15/100)) := by
  refine ⟨C6_category_metric_shifts.1 (initState .FBI) .DIALOGUE,
          C6_category_metric_shifts.2.1 (initState .FBI) "Dialogue",
          _, _, cex3_run, rfl, ?_⟩
  exact C6_category_metric_shifts.2.2 _ _ _ _ _ _ _ _ (by decide) (by decide)
    cex3_run rfl

/--
**C8.**  An applied resource (or adversary-resource) consequence scales
the signed amount by 1.5 on critical success, 0.5 on critical failure
and 1.0 otherwise, truncates to integer (`int(...)`), and the modified
count is clamped at 0, so it never goes negative.
-/
theorem C8_resource_scaling (gs : GameState) (rt : String) (amount : ℤ)
    (p : ℚ) (cs cf : Bool) (cr : ConsRand) (hpo : cr.probOk = true) :
    (∃ ds, applyConsequences [Consequence.resource rt amount p] gs true cs cf
        [cr] = .ok (ds,
          modify_player_resource gs rt (scaleAmount cs cf amount))) ∧
    (∃ ds, applyConsequences [Consequence.ai_resource rt amount p] gs true cs
        cf [cr] = .ok (ds,
          modify_ai_resource gs rt (scaleAmount cs cf amount))) ∧
    scaleAmount true cf amount = pyInt ((amount : ℚ) * (15/10)) ∧
    scaleAmount false true amount = pyInt ((amount : ℚ) * (5/10)) ∧
    scaleAmount false false amount = amount ∧
    (nonnegA gs.player_resources →
      nonnegA (modify_player_resource gs rt
        (scaleAmount cs cf amount)).player_resources) ∧
    (nonnegA gs.ai_resources →
      nonnegA (modify_ai_resource gs rt
        (scaleAmount cs cf amount)).ai_resources) := by
  refine ⟨?_, ?_, rfl, rfl, rfl, ?_, ?_⟩
  · unfold applyConsequences
    try dsimp only
    rw [if_neg (by simp [hpo])]
    try dsimp only
    by_cases hpos : scaleAmount cs cf amount > 0
    · rw [if_pos hpos]
      exact ⟨_, rfl⟩
    · rw [if_neg hpos]
      exact ⟨_, rfl⟩
  · unfold applyConsequences
    try dsimp only
    rw [if_neg (by simp [hpo])]
    try dsimp only
    by_cases hneg : scaleAmount cs cf amount < 0
    · rw [if_pos hneg]
      exact ⟨_, rfl⟩
    · rw [if_neg hneg]
      exact ⟨_, rfl⟩
  · exact fun h => nonnegA_amodMem _ _ _ (fun v => le_max_left 0 _) h
  · exact fun h => nonnegA_amodMem _ _ _ (fun v => le_max_left 0 _) h

/-- Witness for C8: a +2 intelligence consequence on the initial state
under a critical success. -/
theorem C8_resource_scaling_witness :
    ({} : ConsRand).probOk = true ∧
    (∃ ds, applyConsequences [Consequence.resource "intelligence" 2 1]
        (initState .FBI) true true false [{}] = .ok (ds,
          modify_player_resource (initState .FBI) "intelligence"
            (scaleAmount true false 2))) ∧
    nonnegA (modify_player_resource (initState .FBI) "intelligence"
      (scaleAmount true false 2)).player_resources := by
  have h := C8_resource_scaling (initState .FBI) "intelligence" 2 1 true
    false {} rfl
  exact ⟨rfl, h.1, h.2.2.2.2.2.1 (by decide)⟩
/-- `updFirst` changes a position either not at all, or from the first
hostage with the given id to its updated copy. -/
theorem updFirst_get? (l : List Hostage) (i : ℕ) (u : StatusUpdate) (j : ℕ) :
    (updFirst l i u).get? j = l.get? j ∨
    ∃ h, l.get? j = some h ∧ h.id = i ∧
      (updFirst l i u).get? j = some (applyUpd h u) := by
  induction l generalizing j with
  | nil => left; simp [updFirst]
  | cons h t ih =>
    by_cases hid : h.id = i
    · cases j with
      | zero => right; exact ⟨h, rfl, hid, by simp [updFirst, hid]⟩
      | succ j => left; simp [updFirst, hid]
    · cases j with
      | zero => left; simp [updFirst, hid]
      | succ j =>
        rcases ih j with hc | ⟨h', h1, h2, h3⟩
        · left; simpa [updFirst, hid] using hc
        · right; exact ⟨h', h1, h2, by simpa [updFirst, hid] using h3⟩

/-- `updFirst` preserves the id sequence. -/
theorem updFirst_ids (l : List Hostage) (i : ℕ) (u : StatusUpdate) :
    (updFirst l i u).map Hostage.id = l.map Hostage.id := by
  induction l with
  | nil => rfl
  | cons h t ih =>
    by_cases hid : h.id = i
    · simp [updFirst, hid, applyUpd]
    · simp [updFirst, hid, ih]

/-- The state returned by `update_hostage_status_raw` carries either the
updated roster or the original one. -/
theorem uhsRaw_list (gs : GameState) (i : ℕ) (u : StatusUpdate) :
    (update_hostage_status_raw gs i u).1.hostages_status =
      updFirst gs.hostages_status i u ∨
    (update_hostage_status_raw gs i u).1.hostages_status =
      gs.hostages_status := by
  unfold update_hostage_status_raw
  split
  · rcases u with ⟨us, uh⟩
    rcases us with _ | s
    · left; rfl
    · simp only
      split
      · left; rfl
      · split
        · split
          · left; rfl
          · left; rfl
        · split
          · left; rfl
          · left; rfl
  · right; rfl

/-- In a roster with unique ids, two members with the same id coincide. -/
theorem eq_of_mem_of_id_eq {l : List Hostage} {a b : Hostage}
    (hnd : (l.map Hostage.id).Nodup) (ha : a ∈ l) (hb : b ∈ l)
    (hid : a.id = b.id) : a = b := by
  induction l with
  | nil => cases ha
  | cons h t ih =>
    simp only [List.map_cons, List.nodup_cons] at hnd
    rcases List.mem_cons.mp ha with h1 | h1 <;>
      rcases List.mem_cons.mp hb with h2 | h2
    · rw [h1, h2]
    · exfalso
      subst h1
      exact hnd.1 (hid ▸ List.mem_map_of_mem Hostage.id h2)
    · exfalso
      subst h2
      exact hnd.1 (hid ▸ List.mem_map_of_mem Hostage.id h1)
    · exact ih hnd.2 h1 h2

/-- Master step lemma: a pick-and-update operation whose pool predicate
forces status `'captured'` either leaves a position's status unchanged or
moves it from `'captured'` to the status the update writes. -/
theorem pickUpdate_step (gs : GameState) (p : Hostage → Bool)
    (hp : ∀ h, p h = true → h.status = "captured") (k : ℕ)
    (u : Hostage → StatusUpdate) (j : ℕ)
    (hnd : (gs.hostages_status.map Hostage.id).Nodup) :
    statusAtPos (pickUpdate gs p k u) j = statusAtPos gs j ∨
    (statusAtPos gs j = some "captured" ∧
      ∃ h, statusAtPos (pickUpdate gs p k u) j =
        some ((u h).status.getD "captured")) := by
  unfold pickUpdate
  rcases hpick : pickFiltered gs p k with _ | h
  · left; rfl
  · have hmem : h ∈ gs.hostages_status.filter p := by
      unfold pickFiltered at hpick
      obtain ⟨x, hx, he⟩ := pickIdx_of_ne_nil
        (l := gs.hostages_status.filter p) (fun hn => by simp [pickIdx, hn] at hpick)
        k
      rw [he] at hpick
      exact Option.some_injective _ hpick ▸ hx
    have hstat : h.status = "captured" :=
      hp h (List.of_mem_filter hmem)
    have hmem' : h ∈ gs.hostages_status := List.mem_of_mem_filter hmem
    rcases uhsRaw_list gs h.id (u h) with hl | hl
    · unfold statusAtPos
      rw [hl]
      rcases updFirst_get? gs.hostages_status h.id (u h) j with hc | ⟨h', h1, h2, h3⟩
      · left; rw [hc]
      · have hmem'' : h' ∈ gs.hostages_status := by
          exact List.get?_mem h1
        have : h' = h := eq_of_mem_of_id_eq hnd hmem'' hmem' h2
        subst this
        right
        refine ⟨by rw [h1]; simp [hstat], h', ?_⟩
        rw [h3]
        simp [applyUpd, hstat]
    · left; unfold statusAtPos; rw [hl]

/-- Status at every position is untouched by a status-preserving roster
map. -/
theorem statusAtPos_map (gs : GameState) (f : Hostage → Hostage)
    (hf : ∀ h, (f h).status = h.status) (j : ℕ) :
    statusAtPos { gs with hostages_status := gs.hostages_status.map f } j =
      statusAtPos gs j := by
  unfold statusAtPos
  simp only [List.get?_map]
  cases gs.hostages_status.get? j <;> simp [hf]

/-- `decayOne` preserves the status field. -/
theorem decayOne_status (roll : Bool) (h : Hostage) :
    (decayOne roll h).status = h.status := by
  unfold decayOne
  split
  · dsimp only
    split <;> rfl
  · rfl

/-- `decayOne` preserves the id field. -/
theorem decayOne_id (roll : Bool) (h : Hostage) :
    (decayOne roll h).id = h.id := by
  unfold decayOne
  split
  · dsimp only
    split <;> rfl
  · rfl

/-- `decayList` preserves every status. -/
theorem decayList_status (l : List Hostage) (rolls : List Bool) (j : ℕ) :
    ((decayList l rolls).get? j).map Hostage.status =
      (l.get? j).map Hostage.status := by
  induction l generalizing j rolls with
  | nil => simp [decayList]
  | cons h t ih =>
    cases j with
    | zero => simp [decayList, decayOne_status]
    | succ j => simpa [decayList] using ih rolls.tail j

/-- Single-step version of the C9 lattice property. -/
theorem hostageOp_step (gs : GameState) (op : HostageOp) (j : ℕ)
    (hnd : (gs.hostages_status.map Hostage.id).Nodup) :
    statusAtPos (applyHostageOp gs op) j = statusAtPos gs j ∨
    (statusAtPos gs j = some "captured" ∧
      (statusAtPos (applyHostageOp gs op) j = some "released" ∨
       statusAtPos (applyHostageOp gs op) j = some "wounded" ∨
       statusAtPos (applyHostageOp gs op) j = some "killed")) := by
  cases op with
  | consRelease k =>
    rcases pickUpdate_step gs (fun h => h.status = "captured")
      (fun h hh => of_decide_eq_true hh) k
      (fun _ => { status := some "released" }) j hnd with hc | ⟨h1, _, h2⟩
    · left; exact hc
    · right; exact ⟨h1, Or.inl h2⟩
  | consWound k =>
    rcases pickUpdate_step gs (fun h => h.status = "captured")
      (fun h hh => of_decide_eq_true hh) k
      (fun h => { status := some "wounded", health := some (max (h.health - 50) 10) })
      j hnd with hc | ⟨h1, _, h2⟩
    · left; exact hc
    · right; exact ⟨h1, Or.inr (Or.inl h2)⟩
  | consKill k =>
    rcases pickUpdate_step gs (fun h => h.status = "captured")
      (fun h hh => of_decide_eq_true hh) k
      (fun _ => { status := some "killed", health := some 0 }) j hnd with
      hc | ⟨h1, _, h2⟩
    · left; exact hc
    · right; exact ⟨h1, Or.inr (Or.inr h2)⟩
  | usaWound k =>
    rcases pickUpdate_step gs (fun h => h.status = "captured" ∧ h.health = 100)
      (fun h hh => (of_decide_eq_true hh).1) k
      (fun _ => { health := some 50, status := some "wounded" }) j hnd with
      hc | ⟨h1, _, h2⟩
    · left; exact hc
    · right; exact ⟨h1, Or.inr (Or.inl h2)⟩
  | usaRelease k =>
    rcases pickUpdate_step gs (fun h => h.status = "captured")
      (fun h hh => of_decide_eq_true hh) k
      (fun _ => { status := some "released" }) j hnd with hc | ⟨h1, _, h2⟩
    · left; exact hc
    · right; exact ⟨h1, Or.inl h2⟩
  | effRelease k =>
    rcases pickUpdate_step gs (fun h => h.status = "captured")
      (fun h hh => of_decide_eq_true hh) k
      (fun _ => { status := some "released" }) j hnd with hc | ⟨h1, _, h2⟩
    · left; exact hc
    · right; exact ⟨h1, Or.inl h2⟩
  | aiWoundHealth k =>
    rcases pickUpdate_step gs (fun h => h.status = "captured" ∧ h.health > 50)
      (fun h hh => (of_decide_eq_true hh).1) k
      (fun h => { health := some (max 10 (h.health - 40)) }) j hnd with
      hc | ⟨h1, _, h2⟩
    · left; exact hc
    · left
      show statusAtPos (pickUpdate gs _ k _) j = statusAtPos gs j
      rw [h2, h1]
      rfl
  | aiKill k =>
    rcases pickUpdate_step gs (fun h => h.status = "captured")
      (fun h hh => of_decide_eq_true hh) k
      (fun _ => { status := some "killed", health := some 0 }) j hnd with
      hc | ⟨h1, _, h2⟩
    · left; exact hc
    · right; exact ⟨h1, Or.inr (Or.inr h2)⟩
  | endTurnDecay rolls =>
    left
    unfold applyHostageOp statusAtPos
    exact decayList_status gs.hostages_status rolls j
  | waterDeprivation =>
    left
    apply statusAtPos_map
    intro h
    by_cases hh : h.status = "captured" <;> simp [hh]
  | fireStress =>
    left
    apply statusAtPos_map
    intro h
    by_cases hh : h.status = "captured" <;> simp [hh]

/-- Every hostage operation preserves the id sequence. -/
theorem hostageOp_ids (gs : GameState) (op : HostageOp) :
    (applyHostageOp gs op).hostages_status.map Hostage.id =
      gs.hostages_status.map Hostage.id := by
  have hpick : ∀ (p : Hostage → Bool) (k : ℕ) (u : Hostage → StatusUpdate),
      (pickUpdate gs p k u).hostages_status.map Hostage.id =
        gs.hostages_status.map Hostage.id := by
    intro p k u
    unfold pickUpdate
    rcases pickFiltered gs p k with _ | h
    · rfl
    · rcases uhsRaw_list gs h.id (u h) with hl | hl <;> rw [hl]
      · exact updFirst_ids _ _ _
  have hmap : ∀ f : Hostage → Hostage, (∀ h, (f h).id = h.id) →
      ((gs.hostages_status.map f).map Hostage.id =
        gs.hostages_status.map Hostage.id) := by
    intro f hf
    rw [List.map_map]
    exact List.map_congr_left fun h _ => hf h
  have hdecay : ∀ (l : List Hostage) (rolls : List Bool),
      (decayList l rolls).map Hostage.id = l.map Hostage.id := by
    intro l
    induction l with
    | nil => intro rolls; rfl
    | cons h t ih =>
      intro rolls
      simp only [decayList, List.map_cons, ih]
      congr 1
      exact decayOne_id _ _
  cases op <;> simp only [applyHostageOp] <;>
    first
      | apply hpick
      | apply hdecay
      | · apply hmap
          intro h
          by_cases hh : h.status = "captured" <;> simp [hh]

/--
**C9.**  Along every sequence of the repository's hostage-touching core
operations (consequence application, the action-resolution wounding and
release paths, AI-opponent actions, end-of-turn deterioration,
environment effects), starting from any state whose roster has unique ids
(as `__init__` guarantees): a hostage whose status is `'released'` or
`'killed'` never changes status again; every status change is one of
`captured → released`, `captured → wounded`, `captured → killed` (all
inside the claimed transition set, which also lists
`wounded → killed`); and the transition `wounded → captured` never
occurs.
-/
theorem C9_hostage_status_lattice (gs : GameState) (ops : List HostageOp)
    (op : HostageOp) (j : ℕ)
    (hnd : (gs.hostages_status.map Hostage.id).Nodup) :
    ((statusAtPos (applyHostageOps gs ops) j = some "released" ∨
      statusAtPos (applyHostageOps gs ops) j = some "killed") →
      statusAtPos (applyHostageOp (applyHostageOps gs ops) op) j =
        statusAtPos (applyHostageOps gs ops) j) ∧
    (statusAtPos (applyHostageOp (applyHostageOps gs ops) op) j ≠
        statusAtPos (applyHostageOps gs ops) j →
      statusAtPos (applyHostageOps gs ops) j = some "captured" ∧
      (statusAtPos (applyHostageOp (applyHostageOps gs ops) op) j = some "released" ∨
       statusAtPos (applyHostageOp (applyHostageOps gs ops) op) j = some "wounded" ∨
       statusAtPos (applyHostageOp (applyHostageOps gs ops) op) j = some "killed")) ∧
    ¬(statusAtPos (applyHostageOps gs ops) j = some "wounded" ∧
      statusAtPos (applyHostageOp (applyHostageOps gs ops) op) j =
        some "captured") := by
  have hnd1 : ((applyHostageOps gs ops).hostages_status.map Hostage.id).Nodup := by
    induction ops generalizing gs with
    | nil => exact hnd
    | cons o rest ih =>
      exact ih (applyHostageOp gs o) (by rw [hostageOp_ids]; exact hnd)
  rcases hostageOp_step (applyHostageOps gs ops) op j hnd1 with hc | ⟨h1, h2⟩
  · refine ⟨fun _ => hc, fun hne => absurd hc hne, ?_⟩
    rintro ⟨hw, hcap⟩
    rw [hc, hw] at hcap
    simp at hcap
  · refine ⟨?_, fun _ => ⟨h1, h2⟩, ?_⟩
    · rintro (hr | hr) <;> rw [h1] at hr <;> simp at hr
    · rintro ⟨hw, _⟩
      rw [h1] at hw
      simp at hw

/-- Witness for C9: one release step on the initial roster. -/
theorem C9_hostage_status_lattice_witness :
    ((statusAtPos (applyHostageOps (initState .FBI) []) 0 = some "released" ∨
      statusAtPos (applyHostageOps (initState .FBI) []) 0 = some "killed") →
      statusAtPos (applyHostageOp (applyHostageOps (initState .FBI) [])
        (.consRelease 0)) 0 = statusAtPos (applyHostageOps (initState .FBI) []) 0) ∧
    (statusAtPos (applyHostageOp (applyHostageOps (initState .FBI) [])
        (.consRelease 0)) 0 ≠ statusAtPos (applyHostageOps (initState .FBI) []) 0 →
      statusAtPos (applyHostageOps (initState .FBI) []) 0 = some "captured" ∧
      (statusAtPos (applyHostageOp (applyHostageOps (initState .FBI) [])
          (.consRelease 0)) 0 = some "released" ∨
       statusAtPos (applyHostageOp (applyHostageOps (initState .FBI) [])
          (.consRelease 0)) 0 = some "wounded" ∨
       statusAtPos (applyHostageOp (applyHostageOps (initState .FBI) [])
          (.consRelease 0)) 0 = some "killed")) ∧
    ¬(statusAtPos (applyHostageOps (initState .FBI) []) 0 = some "wounded" ∧
      statusAtPos (applyHostageOp (applyHostageOps (initState .FBI) [])
        (.consRelease 0)) 0 = some "captured") :=
  C9_hostage_status_lattice (initState .FBI) [] (.consRelease 0) 0 (by decide)

end WHaS
